import Mathlib

/-!
# LGDictEntry / LGHaveDictEntry

A shallow embedding of `opencog/nlp/lg-dict/LGDictEntry.cc`: the two link
classes `LGDictEntry` (dictionary lookup, a `FunctionLink`) and
`LGHaveDictEntry` (dictionary existence query, an evaluatable `Link`), their
`init` shape checks, their two constructors and `execute` / `evaluate`.

C++ exceptions are values of `Exn` inside `Except`; the AtomSpace that
`execute` writes to is threaded explicitly, so every outcome is a pair of the
returned value (or thrown exception) and the AtomSpace afterwards.
-/

set_option linter.dupNamespace false

namespace opencog

/-- Atom type tags (`Type` in the source, an integer handed out by the name server). -/
abbrev AtomType := Nat

/-- Link Grammar dictionary handle (`Dictionary` in the source, a pointer);
`nullptr` is `none` of `Option Dictionary`. -/
abbrev Dictionary := Nat

/-- What the source reads from an atom behind a `Handle`: `get_type()`,
`get_name()` and `to_string()`. -/
structure Atom where
  type : AtomType
  name : String
  to_string : String
deriving DecidableEq, Repr

abbrev Handle := Atom
abbrev HandleSeq := List Handle

/-- A link as the constructors see it: its type tag and its outgoing set. -/
structure Link where
  type : AtomType
  outgoing : HandleSeq
deriving DecidableEq, Repr

/-- The name server and the type constants of `atom_types`, which the source
uses but does not define: the six tags, `isA` and `getTypeName`. -/
structure NameServer where
  WORD_NODE : AtomType
  VARIABLE_NODE : AtomType
  GLOB_NODE : AtomType
  LG_DICT_NODE : AtomType
  LG_DICT_ENTRY : AtomType
  LG_HAVE_DICT_ENTRY : AtomType
  isA : AtomType → AtomType → Bool
  getTypeName : AtomType → String

/-- The dictionary collaborators (`LGDictNode.h`, `LGDictReader.h`), which the
source calls but does not define: `LgDictNode::get_dictionary` (`none` is
`nullptr`), `getDictEntry` and `haveDictEntry`. -/
structure DictService where
  get_dictionary : Handle → Option Dictionary
  getDictEntry : Dictionary → String → HandleSeq
  haveDictEntry : Dictionary → String → Bool

/-- The one AtomSpace operation the source calls, `AtomSpace::add_atom`, over
an arbitrary representation `S` of the AtomSpace contents. -/
structure AtomSpace (S : Type) where
  add_atom : S → Handle → S

/-- What a call can throw. `OutOfRange` is not a C++ exception: it marks a
`_outgoing[i]` subscript beyond the size of the vector, which the source
leaves undefined. -/
inductive Exn where
  | InvalidParamException (msg : String)
  | SilentException
  | OutOfRange
deriving DecidableEq, Repr

/-- The two truth values `evaluate` returns. -/
inductive TruthValue where
  | TRUE_TV
  | FALSE_TV
deriving DecidableEq, Repr

/-- Subscript `oset[i]` of a `HandleSeq`. -/
def subscript (oset : HandleSeq) (i : Nat) : Except Exn Handle :=
  match oset[i]? with
  | some h => .ok h
  | none => .error .OutOfRange

/-- `LGDictEntry::init`: the shape check on `_outgoing`. -/
def LGDictEntry.init (ns : NameServer) (self : Link) : Except Exn Unit := do
  let oset := self.outgoing
  let osz := oset.length
  if 2 ≠ osz then
    throw (.InvalidParamException
      ("LgDictEntry: Expecting two arguments, got " ++ toString osz))
  let a0 ← subscript oset 0
  let pht := a0.type
  if ns.WORD_NODE ≠ pht ∧ ns.VARIABLE_NODE ≠ pht ∧ ns.GLOB_NODE ≠ pht then
    throw (.InvalidParamException
      ("LgDictEntry: Expecting WordNode, got " ++ a0.to_string))
  let a1 ← subscript oset 1
  let dit := a1.type
  if ns.LG_DICT_NODE ≠ dit ∧ ns.VARIABLE_NODE ≠ dit ∧ ns.GLOB_NODE ≠ dit then
    throw (.InvalidParamException
      ("LgDictEntry: Expecting LgDictNode, got " ++ a1.to_string))

/-- `LGDictEntry::LGDictEntry(const HandleSeq&, Type)`: the base class stores
the outgoing set and the tag, then the tag is checked, then `init` runs. -/
def LGDictEntry.LGDictEntry (ns : NameServer) (oset : HandleSeq) (t : AtomType) :
    Except Exn Link := do
  let self : Link := { type := t, outgoing := oset }
  if !ns.isA t ns.LG_DICT_ENTRY then
    let tname := ns.getTypeName t
    throw (.InvalidParamException ("Expecting an LgDictEntry, got " ++ tname))
  LGDictEntry.init ns self
  return self

/-- `LGDictEntry::LGDictEntry(const Link&)`: the base class copies the link,
then the tag is checked. -/
def LGDictEntry.LGDictEntry_Link (ns : NameServer) (l : Link) : Except Exn Link := do
  let self : Link := { type := l.type, outgoing := l.outgoing }
  let tparse := l.type
  if !ns.isA tparse ns.LG_DICT_ENTRY then
    let tname := ns.getTypeName tparse
    throw (.InvalidParamException ("Expecting an LgDictEntry, got " ++ tname))
  return self

/-- The loop `for (const Handle& dj: djs) as->add_atom(dj);`. -/
def add_atoms {S : Type} (sp : AtomSpace S) : HandleSeq → S → S
  | [], as => as
  | dj :: djs, as => add_atoms sp djs (sp.add_atom as dj)

/-- `LGDictEntry::execute(AtomSpace* as, bool silent)`: the value returned or
the exception thrown, and the AtomSpace afterwards. -/
def LGDictEntry.execute {S : Type} (ns : NameServer) (ds : DictService)
    (sp : AtomSpace S) (self : Link) (as : S) (silent : Bool) :
    Except Exn Handle × S :=
  match subscript self.outgoing 0 with
  | .error e => (.error e, as)
  | .ok a0 =>
    if ns.WORD_NODE ≠ a0.type then
      if silent then (.error .SilentException, as)
      else (.error (.InvalidParamException
        ("LgDictEntry: Expecting WordNode, got " ++ a0.to_string)), as)
    else
      match subscript self.outgoing 1 with
      | .error e => (.error e, as)
      | .ok a1 =>
        if ns.LG_DICT_NODE ≠ a1.type then
          if silent then (.error .SilentException, as)
          else (.error (.InvalidParamException
            ("LgDictEntry: Expecting WordNode, got " ++ a0.to_string)), as)
        else
          -- Get the dictionary
          let ldn := a1
          match ds.get_dictionary ldn with
          | none => (.error (.InvalidParamException
              ("LgDictEntry requires valid dictionary! " ++ ldn.name ++ " was given.")), as)
          | some dict =>
            let djs := ds.getDictEntry dict a0.name
            (.ok a0, add_atoms sp djs as)

/-- `LGHaveDictEntry::init`: same init sequence as `LGDictEntry::init`. -/
def LGHaveDictEntry.init (ns : NameServer) (self : Link) : Except Exn Unit := do
  let oset := self.outgoing
  let osz := oset.length
  if 2 ≠ osz then
    throw (.InvalidParamException
      ("LgHaveDictEntry: Expecting two arguments, got " ++ toString osz))
  let a0 ← subscript oset 0
  let pht := a0.type
  if ns.WORD_NODE ≠ pht ∧ ns.VARIABLE_NODE ≠ pht ∧ ns.GLOB_NODE ≠ pht then
    throw (.InvalidParamException
      ("LgHaveDictEntry: Expecting WordNode, got " ++ a0.to_string))
  let a1 ← subscript oset 1
  let dit := a1.type
  if ns.LG_DICT_NODE ≠ dit ∧ ns.VARIABLE_NODE ≠ dit ∧ ns.GLOB_NODE ≠ dit then
    throw (.InvalidParamException
      ("LgHaveDictEntry: Expecting LgDictNode, got " ++ a1.to_string))

/-- `LGHaveDictEntry::LGHaveDictEntry(const HandleSeq&, Type)`. -/
def LGHaveDictEntry.LGHaveDictEntry (ns : NameServer) (oset : HandleSeq) (t : AtomType) :
    Except Exn Link := do
  let self : Link := { type := t, outgoing := oset }
  if !ns.isA t ns.LG_HAVE_DICT_ENTRY then
    let tname := ns.getTypeName t
    throw (.InvalidParamException ("Expecting an LgHaveDictEntry, got " ++ tname))
  LGHaveDictEntry.init ns self
  return self

/-- `LGHaveDictEntry::LGHaveDictEntry(const Link&)`. -/
def LGHaveDictEntry.LGHaveDictEntry_Link (ns : NameServer) (l : Link) : Except Exn Link := do
  let self : Link := { type := l.type, outgoing := l.outgoing }
  let tparse := l.type
  if !ns.isA tparse ns.LG_HAVE_DICT_ENTRY then
    let tname := ns.getTypeName tparse
    throw (.InvalidParamException ("Expecting an LgHaveDictEntry, got " ++ tname))
  return self

/-- `LGHaveDictEntry::evaluate(AtomSpace* as, bool silent)`: the truth value
returned or the exception thrown, and the AtomSpace afterwards. -/
def LGHaveDictEntry.evaluate {S : Type} (ns : NameServer) (ds : DictService)
    (self : Link) (as : S) (silent : Bool) : Except Exn TruthValue × S :=
  match subscript self.outgoing 0 with
  | .error e => (.error e, as)
  | .ok a0 =>
    if ns.WORD_NODE ≠ a0.type then
      if silent then (.error .SilentException, as)
      else (.error (.InvalidParamException
        ("LgHaveDictEntry: Expecting WordNode, got " ++ a0.to_string)), as)
    else
      match subscript self.outgoing 1 with
      | .error e => (.error e, as)
      | .ok a1 =>
        if ns.LG_DICT_NODE ≠ a1.type then
          if silent then (.error .SilentException, as)
          else (.error (.InvalidParamException
            ("LgHaveDictEntry: Expecting WordNode, got " ++ a0.to_string)), as)
        else
          -- Get the dictionary
          let ldn := a1
          match ds.get_dictionary ldn with
          | none => (.error (.InvalidParamException
              ("LgDictEntry requires valid dictionary! " ++ ldn.name ++ " was given.")), as)
          | some dict =>
            if ds.haveDictEntry dict a0.name then (.ok .TRUE_TV, as)
            else (.ok .FALSE_TV, as)

/-! ## A concrete instance of the collaborators

A small name server, dictionary and AtomSpace on which the definitions above
can be evaluated. -/

/-- Six distinct tags; `isA` is equality of tags (no subtypes). -/
def exampleNameServer : NameServer where
  WORD_NODE := 1
  VARIABLE_NODE := 2
  GLOB_NODE := 3
  LG_DICT_NODE := 4
  LG_DICT_ENTRY := 5
  LG_HAVE_DICT_ENTRY := 6
  isA := fun t u => t == u
  getTypeName := fun t => "Type" ++ toString t

/-- A tag outside the six, standing for `NUMBER_NODE`. -/
def NUMBER_NODE : AtomType := 7

def wordCat : Atom := ⟨1, "cat", "(WordNode \"cat\")"⟩
def wordZzzqx : Atom := ⟨1, "zzzqx", "(WordNode \"zzzqx\")"⟩
def variableX : Atom := ⟨2, "$x", "(VariableNode \"$x\")"⟩
def dictEn : Atom := ⟨4, "en", "(LgDictNode \"en\")"⟩
def dictXx : Atom := ⟨4, "xx", "(LgDictNode \"xx\")"⟩
def number42 : Atom := ⟨NUMBER_NODE, "42", "(NumberNode \"42\")"⟩
def entryCat1 : Atom := ⟨8, "", "(LgDisjunct (WordNode \"cat\") (LgConnector \"Ds\" \"-\"))"⟩
def entryCat2 : Atom := ⟨8, "", "(LgDisjunct (WordNode \"cat\") (LgConnector \"Ss\" \"+\"))"⟩

/-- Only "en" opens (as handle 1); it knows the single word "cat", with two entries. -/
def exampleDict : DictService where
  get_dictionary := fun h => if h.name = "en" then some 1 else none
  getDictEntry := fun _ w => if w = "cat" then [entryCat1, entryCat2] else []
  haveDictEntry := fun _ w => decide (w = "cat")

/-- An AtomSpace kept as the list of its atoms; adding an atom that is already
there leaves the list as it is. -/
def listSpace : AtomSpace (List Atom) where
  add_atom := fun s h => if h ∈ s then s else s ++ [h]

/-- An AtomSpace that only records the sequence of `add_atom` calls made on it. -/
def recordingSpace : AtomSpace (List Atom) where
  add_atom := fun s h => s ++ [h]

/-- The shape invariant of a call node: exactly two arguments, argument 0
tagged `WORD_NODE`, `VARIABLE_NODE` or `GLOB_NODE`, argument 1 tagged
`LG_DICT_NODE`, `VARIABLE_NODE` or `GLOB_NODE`. -/
def ShapeInvariant (ns : NameServer) (l : Link) : Prop :=
  ∃ a0 a1, l.outgoing = [a0, a1] ∧
    (a0.type = ns.WORD_NODE ∨ a0.type = ns.VARIABLE_NODE ∨ a0.type = ns.GLOB_NODE) ∧
    (a1.type = ns.LG_DICT_NODE ∨ a1.type = ns.VARIABLE_NODE ∨ a1.type = ns.GLOB_NODE)

/-- The Shape Validator as the specification words it, `validate(kind,
arguments)`: exactly two arguments, argument 0 of type Word, Variable or Glob,
argument 1 of type DictionaryRef, Variable or Glob; a violation fails carrying
the size, resp. the text of the offending argument, and `kind` only names the
call kind in the message. -/
def validate (ns : NameServer) (kind : String) (arguments : HandleSeq) : Except Exn Unit :=
  match arguments with
  | [a0, a1] =>
    if ¬ (a0.type = ns.WORD_NODE ∨ a0.type = ns.VARIABLE_NODE ∨ a0.type = ns.GLOB_NODE) then
      .error (.InvalidParamException (kind ++ ": Expecting WordNode, got " ++ a0.to_string))
    else if ¬ (a1.type = ns.LG_DICT_NODE ∨ a1.type = ns.VARIABLE_NODE ∨
        a1.type = ns.GLOB_NODE) then
      .error (.InvalidParamException (kind ++ ": Expecting LgDictNode, got " ++ a1.to_string))
    else .ok ()
  | _ =>
    .error (.InvalidParamException
      (kind ++ ": Expecting two arguments, got " ++ toString arguments.length))

/-- Atom `h` is already present in AtomSpace `s`: `s` came about by adding `h`
and then any sequence of further atoms. -/
def Inserted {S : Type} (sp : AtomSpace S) (s : S) (h : Handle) : Prop :=
  ∃ s0 post, s = add_atoms sp post (sp.add_atom s0 h)

/-! ## Shape of `init` and of the constructors -/

/-- The Lookup shape check on a list that does not have two elements. -/
theorem LGDictEntry_init_arity (ns : NameServer) (t : AtomType) (oset : HandleSeq)
    (h : oset.length ≠ 2) :
    LGDictEntry.init ns ⟨t, oset⟩ = .error (.InvalidParamException
      ("LgDictEntry: Expecting two arguments, got " ++ toString oset.length)) := by
  have h2 : ¬ (2 = oset.length) := fun e => h e.symm
  simp [LGDictEntry.init, h2, bind, Except.bind, throw, throwThe, MonadExceptOf.throw]

/-- The Existence shape check on a list that does not have two elements. -/
theorem LGHaveDictEntry_init_arity (ns : NameServer) (t : AtomType) (oset : HandleSeq)
    (h : oset.length ≠ 2) :
    LGHaveDictEntry.init ns ⟨t, oset⟩ = .error (.InvalidParamException
      ("LgHaveDictEntry: Expecting two arguments, got " ++ toString oset.length)) := by
  have h2 : ¬ (2 = oset.length) := fun e => h e.symm
  simp [LGHaveDictEntry.init, h2, bind, Except.bind, throw, throwThe, MonadExceptOf.throw]

/-- The Lookup shape check on a two-element list, as a case split. -/
theorem LGDictEntry_init_pair (ns : NameServer) (t : AtomType) (a0 a1 : Handle) :
    LGDictEntry.init ns ⟨t, [a0, a1]⟩ =
      if ns.WORD_NODE ≠ a0.type ∧ ns.VARIABLE_NODE ≠ a0.type ∧ ns.GLOB_NODE ≠ a0.type then
        .error (.InvalidParamException ("LgDictEntry: Expecting WordNode, got " ++ a0.to_string))
      else if ns.LG_DICT_NODE ≠ a1.type ∧ ns.VARIABLE_NODE ≠ a1.type ∧ ns.GLOB_NODE ≠ a1.type then
        .error (.InvalidParamException ("LgDictEntry: Expecting LgDictNode, got " ++ a1.to_string))
      else .ok () := by
  by_cases h0 : ns.WORD_NODE ≠ a0.type ∧ ns.VARIABLE_NODE ≠ a0.type ∧ ns.GLOB_NODE ≠ a0.type <;>
  by_cases h1 : ns.LG_DICT_NODE ≠ a1.type ∧ ns.VARIABLE_NODE ≠ a1.type ∧ ns.GLOB_NODE ≠ a1.type <;>
  simp [LGDictEntry.init, subscript, bind, Except.bind, throw, throwThe, MonadExceptOf.throw,
    pure, Except.pure, h0, h1]

/-- The Existence shape check on a two-element list, as a case split. -/
theorem LGHaveDictEntry_init_pair (ns : NameServer) (t : AtomType) (a0 a1 : Handle) :
    LGHaveDictEntry.init ns ⟨t, [a0, a1]⟩ =
      if ns.WORD_NODE ≠ a0.type ∧ ns.VARIABLE_NODE ≠ a0.type ∧ ns.GLOB_NODE ≠ a0.type then
        .error (.InvalidParamException ("LgHaveDictEntry: Expecting WordNode, got " ++ a0.to_string))
      else if ns.LG_DICT_NODE ≠ a1.type ∧ ns.VARIABLE_NODE ≠ a1.type ∧ ns.GLOB_NODE ≠ a1.type then
        .error (.InvalidParamException ("LgHaveDictEntry: Expecting LgDictNode, got " ++ a1.to_string))
      else .ok () := by
  by_cases h0 : ns.WORD_NODE ≠ a0.type ∧ ns.VARIABLE_NODE ≠ a0.type ∧ ns.GLOB_NODE ≠ a0.type <;>
  by_cases h1 : ns.LG_DICT_NODE ≠ a1.type ∧ ns.VARIABLE_NODE ≠ a1.type ∧ ns.GLOB_NODE ≠ a1.type <;>
  simp [LGHaveDictEntry.init, subscript, bind, Except.bind, throw, throwThe, MonadExceptOf.throw,
    pure, Except.pure, h0, h1]

/-- The Lookup constructor: tag check first, then `init`. -/
theorem LGDictEntry_ctor_eq (ns : NameServer) (oset : HandleSeq) (t : AtomType) :
    LGDictEntry.LGDictEntry ns oset t =
      if ns.isA t ns.LG_DICT_ENTRY = false then
        .error (.InvalidParamException ("Expecting an LgDictEntry, got " ++ ns.getTypeName t))
      else match LGDictEntry.init ns ⟨t, oset⟩ with
        | .error e => .error e
        | .ok _ => .ok ⟨t, oset⟩ := by
  simp only [LGDictEntry.LGDictEntry, bind, Except.bind, throw, throwThe, MonadExceptOf.throw,
    pure, Except.pure]
  cases ns.isA t ns.LG_DICT_ENTRY <;> simp
  cases LGDictEntry.init ns ⟨t, oset⟩ <;> rfl

/-- The Existence constructor: tag check first, then `init`. -/
theorem LGHaveDictEntry_ctor_eq (ns : NameServer) (oset : HandleSeq) (t : AtomType) :
    LGHaveDictEntry.LGHaveDictEntry ns oset t =
      if ns.isA t ns.LG_HAVE_DICT_ENTRY = false then
        .error (.InvalidParamException ("Expecting an LgHaveDictEntry, got " ++ ns.getTypeName t))
      else match LGHaveDictEntry.init ns ⟨t, oset⟩ with
        | .error e => .error e
        | .ok _ => .ok ⟨t, oset⟩ := by
  simp only [LGHaveDictEntry.LGHaveDictEntry, bind, Except.bind, throw, throwThe,
    MonadExceptOf.throw, pure, Except.pure]
  cases ns.isA t ns.LG_HAVE_DICT_ENTRY <;> simp
  cases LGHaveDictEntry.init ns ⟨t, oset⟩ <;> rfl

/-! ## Construction -/

/-- C1: for both call kinds, constructing from an argument list whose length
is not 2 (with any type tag and any argument types) throws
`InvalidParamException` and yields no link; when the tag itself is accepted,
the exception is the arity message of `init`. -/
theorem construction_rejects_wrong_arity (ns : NameServer) (oset : HandleSeq) (t : AtomType)
    (h : oset.length ≠ 2) :
    (∃ msg, LGDictEntry.LGDictEntry ns oset t = .error (.InvalidParamException msg)) ∧
    (∃ msg, LGHaveDictEntry.LGHaveDictEntry ns oset t = .error (.InvalidParamException msg)) ∧
    (ns.isA t ns.LG_DICT_ENTRY = true →
      LGDictEntry.LGDictEntry ns oset t = .error (.InvalidParamException
        ("LgDictEntry: Expecting two arguments, got " ++ toString oset.length))) ∧
    (ns.isA t ns.LG_HAVE_DICT_ENTRY = true →
      LGHaveDictEntry.LGHaveDictEntry ns oset t = .error (.InvalidParamException
        ("LgHaveDictEntry: Expecting two arguments, got " ++ toString oset.length))) := by
  rw [LGDictEntry_ctor_eq, LGHaveDictEntry_ctor_eq, LGDictEntry_init_arity ns t oset h,
    LGHaveDictEntry_init_arity ns t oset h]
  refine ⟨?_, ?_, ?_, ?_⟩
  · cases ns.isA t ns.LG_DICT_ENTRY <;> simp
  · cases ns.isA t ns.LG_HAVE_DICT_ENTRY <;> simp
  · intro hA; simp [hA]
  · intro hA; simp [hA]

/-- C1 at the empty argument list with the Lookup tag. -/
theorem construction_rejects_wrong_arity_witness :
    ([] : HandleSeq).length ≠ 2 ∧
    ((∃ msg, LGDictEntry.LGDictEntry exampleNameServer [] 5 = .error (.InvalidParamException msg)) ∧
    (∃ msg, LGHaveDictEntry.LGHaveDictEntry exampleNameServer [] 5 =
      .error (.InvalidParamException msg)) ∧
    (exampleNameServer.isA 5 exampleNameServer.LG_DICT_ENTRY = true →
      LGDictEntry.LGDictEntry exampleNameServer [] 5 = .error (.InvalidParamException
        ("LgDictEntry: Expecting two arguments, got " ++ toString ([] : HandleSeq).length))) ∧
    (exampleNameServer.isA 5 exampleNameServer.LG_HAVE_DICT_ENTRY = true →
      LGHaveDictEntry.LGHaveDictEntry exampleNameServer [] 5 = .error (.InvalidParamException
        ("LgHaveDictEntry: Expecting two arguments, got " ++ toString ([] : HandleSeq).length)))) :=
  ⟨by decide, construction_rejects_wrong_arity exampleNameServer [] 5 (by decide)⟩

/-- C2: for both call kinds, constructing from a two-element argument list
whose argument 0 is tagged neither `WORD_NODE`, `VARIABLE_NODE` nor
`GLOB_NODE` throws `InvalidParamException`, whatever argument 1 is; when the
tag of the link is accepted, the exception is the one of `init`, carrying the
text of argument 0. -/
theorem construction_rejects_bad_argument0 (ns : NameServer) (a0 a1 : Handle) (t : AtomType)
    (hW : a0.type ≠ ns.WORD_NODE) (hV : a0.type ≠ ns.VARIABLE_NODE)
    (hG : a0.type ≠ ns.GLOB_NODE) :
    (∃ msg, LGDictEntry.LGDictEntry ns [a0, a1] t = .error (.InvalidParamException msg)) ∧
    (∃ msg, LGHaveDictEntry.LGHaveDictEntry ns [a0, a1] t =
      .error (.InvalidParamException msg)) ∧
    (ns.isA t ns.LG_DICT_ENTRY = true →
      LGDictEntry.LGDictEntry ns [a0, a1] t = .error (.InvalidParamException
        ("LgDictEntry: Expecting WordNode, got " ++ a0.to_string))) ∧
    (ns.isA t ns.LG_HAVE_DICT_ENTRY = true →
      LGHaveDictEntry.LGHaveDictEntry ns [a0, a1] t = .error (.InvalidParamException
        ("LgHaveDictEntry: Expecting WordNode, got " ++ a0.to_string))) := by
  have h0 : ns.WORD_NODE ≠ a0.type ∧ ns.VARIABLE_NODE ≠ a0.type ∧ ns.GLOB_NODE ≠ a0.type :=
    ⟨fun e => hW e.symm, fun e => hV e.symm, fun e => hG e.symm⟩
  rw [LGDictEntry_ctor_eq, LGHaveDictEntry_ctor_eq, LGDictEntry_init_pair,
    LGHaveDictEntry_init_pair, if_pos h0, if_pos h0]
  refine ⟨?_, ?_, ?_, ?_⟩
  · cases ns.isA t ns.LG_DICT_ENTRY <;> simp
  · cases ns.isA t ns.LG_HAVE_DICT_ENTRY <;> simp
  · intro hA; simp [hA]
  · intro hA; simp [hA]

/-- C2 at a number in position 0 and a dictionary in position 1, Existence tag. -/
theorem construction_rejects_bad_argument0_witness :
    (number42.type ≠ exampleNameServer.WORD_NODE ∧
     number42.type ≠ exampleNameServer.VARIABLE_NODE ∧
     number42.type ≠ exampleNameServer.GLOB_NODE) ∧
    ((∃ msg, LGDictEntry.LGDictEntry exampleNameServer [number42, dictEn] 6 =
      .error (.InvalidParamException msg)) ∧
    (∃ msg, LGHaveDictEntry.LGHaveDictEntry exampleNameServer [number42, dictEn] 6 =
      .error (.InvalidParamException msg)) ∧
    (exampleNameServer.isA 6 exampleNameServer.LG_DICT_ENTRY = true →
      LGDictEntry.LGDictEntry exampleNameServer [number42, dictEn] 6 =
        .error (.InvalidParamException
          ("LgDictEntry: Expecting WordNode, got " ++ number42.to_string))) ∧
    (exampleNameServer.isA 6 exampleNameServer.LG_HAVE_DICT_ENTRY = true →
      LGHaveDictEntry.LGHaveDictEntry exampleNameServer [number42, dictEn] 6 =
        .error (.InvalidParamException
          ("LgHaveDictEntry: Expecting WordNode, got " ++ number42.to_string)))) :=
  ⟨by decide, construction_rejects_bad_argument0 exampleNameServer number42 dictEn 6
    (by decide) (by decide) (by decide)⟩

/-- C3: for both call kinds, constructing from a two-element argument list
whose argument 1 is tagged neither `LG_DICT_NODE`, `VARIABLE_NODE` nor
`GLOB_NODE` throws `InvalidParamException`, whatever argument 0 is; when the
tag of the link and argument 0 are accepted, the exception is the one of
`init` for argument 1, carrying the text of argument 1. -/
theorem construction_rejects_bad_argument1 (ns : NameServer) (a0 a1 : Handle) (t : AtomType)
    (hD : a1.type ≠ ns.LG_DICT_NODE) (hV : a1.type ≠ ns.VARIABLE_NODE)
    (hG : a1.type ≠ ns.GLOB_NODE) :
    (∃ msg, LGDictEntry.LGDictEntry ns [a0, a1] t = .error (.InvalidParamException msg)) ∧
    (∃ msg, LGHaveDictEntry.LGHaveDictEntry ns [a0, a1] t =
      .error (.InvalidParamException msg)) ∧
    (ns.isA t ns.LG_DICT_ENTRY = true →
      (a0.type = ns.WORD_NODE ∨ a0.type = ns.VARIABLE_NODE ∨ a0.type = ns.GLOB_NODE) →
      LGDictEntry.LGDictEntry ns [a0, a1] t = .error (.InvalidParamException
        ("LgDictEntry: Expecting LgDictNode, got " ++ a1.to_string))) ∧
    (ns.isA t ns.LG_HAVE_DICT_ENTRY = true →
      (a0.type = ns.WORD_NODE ∨ a0.type = ns.VARIABLE_NODE ∨ a0.type = ns.GLOB_NODE) →
      LGHaveDictEntry.LGHaveDictEntry ns [a0, a1] t = .error (.InvalidParamException
        ("LgHaveDictEntry: Expecting LgDictNode, got " ++ a1.to_string))) := by
  have h1 : ns.LG_DICT_NODE ≠ a1.type ∧ ns.VARIABLE_NODE ≠ a1.type ∧ ns.GLOB_NODE ≠ a1.type :=
    ⟨fun e => hD e.symm, fun e => hV e.symm, fun e => hG e.symm⟩
  rw [LGDictEntry_ctor_eq, LGHaveDictEntry_ctor_eq, LGDictEntry_init_pair,
    LGHaveDictEntry_init_pair, if_pos h1, if_pos h1]
  refine ⟨?_, ?_, ?_, ?_⟩
  · cases ns.isA t ns.LG_DICT_ENTRY <;> simp
    split_ifs <;> simp
  · cases ns.isA t ns.LG_HAVE_DICT_ENTRY <;> simp
    split_ifs <;> simp
  · intro hA h0
    have : ¬ (ns.WORD_NODE ≠ a0.type ∧ ns.VARIABLE_NODE ≠ a0.type ∧ ns.GLOB_NODE ≠ a0.type) := by
      rintro ⟨x, y, z⟩
      rcases h0 with e | e | e
      · exact x e.symm
      · exact y e.symm
      · exact z e.symm
    rw [if_neg this]; simp [hA]
  · intro hA h0
    have : ¬ (ns.WORD_NODE ≠ a0.type ∧ ns.VARIABLE_NODE ≠ a0.type ∧ ns.GLOB_NODE ≠ a0.type) := by
      rintro ⟨x, y, z⟩
      rcases h0 with e | e | e
      · exact x e.symm
      · exact y e.symm
      · exact z e.symm
    rw [if_neg this]; simp [hA]

/-- C3 at a word in position 0 and a second word in position 1, Lookup tag. -/
theorem construction_rejects_bad_argument1_witness :
    (wordZzzqx.type ≠ exampleNameServer.LG_DICT_NODE ∧
     wordZzzqx.type ≠ exampleNameServer.VARIABLE_NODE ∧
     wordZzzqx.type ≠ exampleNameServer.GLOB_NODE) ∧
    ((∃ msg, LGDictEntry.LGDictEntry exampleNameServer [wordCat, wordZzzqx] 5 =
      .error (.InvalidParamException msg)) ∧
    (∃ msg, LGHaveDictEntry.LGHaveDictEntry exampleNameServer [wordCat, wordZzzqx] 5 =
      .error (.InvalidParamException msg)) ∧
    (exampleNameServer.isA 5 exampleNameServer.LG_DICT_ENTRY = true →
      (wordCat.type = exampleNameServer.WORD_NODE ∨
        wordCat.type = exampleNameServer.VARIABLE_NODE ∨
        wordCat.type = exampleNameServer.GLOB_NODE) →
      LGDictEntry.LGDictEntry exampleNameServer [wordCat, wordZzzqx] 5 =
        .error (.InvalidParamException
          ("LgDictEntry: Expecting LgDictNode, got " ++ wordZzzqx.to_string))) ∧
    (exampleNameServer.isA 5 exampleNameServer.LG_HAVE_DICT_ENTRY = true →
      (wordCat.type = exampleNameServer.WORD_NODE ∨
        wordCat.type = exampleNameServer.VARIABLE_NODE ∨
        wordCat.type = exampleNameServer.GLOB_NODE) →
      LGHaveDictEntry.LGHaveDictEntry exampleNameServer [wordCat, wordZzzqx] 5 =
        .error (.InvalidParamException
          ("LgHaveDictEntry: Expecting LgDictNode, got " ++ wordZzzqx.to_string)))) :=
  ⟨by decide, construction_rejects_bad_argument1 exampleNameServer wordCat wordZzzqx 5
    (by decide) (by decide) (by decide)⟩

/-- A link accepted by the Lookup `(oset, t)` constructor has the shape invariant. -/
theorem LGDictEntry_ctor_shape (ns : NameServer) (oset : HandleSeq) (t : AtomType) (l : Link)
    (h : LGDictEntry.LGDictEntry ns oset t = .ok l) : ShapeInvariant ns l := by
  rw [LGDictEntry_ctor_eq] at h
  by_cases hlen : oset.length = 2
  · obtain ⟨a0, a1, rfl⟩ := List.length_eq_two.mp hlen
    rw [LGDictEntry_init_pair] at h
    split_ifs at h with hA h0 h1
    simp only [Except.ok.injEq] at h
    subst h
    refine ⟨a0, a1, rfl, ?_, ?_⟩
    · by_contra hc
      push_neg at hc
      exact h0 ⟨fun e => hc.1 e.symm, fun e => hc.2.1 e.symm, fun e => hc.2.2 e.symm⟩
    · by_contra hc
      push_neg at hc
      exact h1 ⟨fun e => hc.1 e.symm, fun e => hc.2.1 e.symm, fun e => hc.2.2 e.symm⟩
  · rw [LGDictEntry_init_arity ns t oset hlen] at h
    split_ifs at h

/-- A link accepted by the Existence `(oset, t)` constructor has the shape invariant. -/
theorem LGHaveDictEntry_ctor_shape (ns : NameServer) (oset : HandleSeq) (t : AtomType)
    (l : Link) (h : LGHaveDictEntry.LGHaveDictEntry ns oset t = .ok l) :
    ShapeInvariant ns l := by
  rw [LGHaveDictEntry_ctor_eq] at h
  by_cases hlen : oset.length = 2
  · obtain ⟨a0, a1, rfl⟩ := List.length_eq_two.mp hlen
    rw [LGHaveDictEntry_init_pair] at h
    split_ifs at h with hA h0 h1
    simp only [Except.ok.injEq] at h
    subst h
    refine ⟨a0, a1, rfl, ?_, ?_⟩
    · by_contra hc
      push_neg at hc
      exact h0 ⟨fun e => hc.1 e.symm, fun e => hc.2.1 e.symm, fun e => hc.2.2 e.symm⟩
    · by_contra hc
      push_neg at hc
      exact h1 ⟨fun e => hc.1 e.symm, fun e => hc.2.1 e.symm, fun e => hc.2.2 e.symm⟩
  · rw [LGHaveDictEntry_init_arity ns t oset hlen] at h
    split_ifs at h

/-- C4 (fails on the copy constructors): copying a plain link that carries the
right tag but an empty outgoing set succeeds for both kinds, although `init`
rejects that very link and the `(oset, t)` constructor refuses to build it; the
link produced violates the shape invariant, and `execute` on it subscripts
past the end of `_outgoing`. -/
theorem copy_constructor_skips_init :
    LGDictEntry.LGDictEntry_Link exampleNameServer ⟨5, []⟩ = .ok ⟨5, []⟩ ∧
    LGHaveDictEntry.LGHaveDictEntry_Link exampleNameServer ⟨6, []⟩ = .ok ⟨6, []⟩ ∧
    ¬ ShapeInvariant exampleNameServer ⟨5, []⟩ ∧
    ¬ ShapeInvariant exampleNameServer ⟨6, []⟩ ∧
    LGDictEntry.init exampleNameServer ⟨5, []⟩ = .error (.InvalidParamException
      "LgDictEntry: Expecting two arguments, got 0") ∧
    LGHaveDictEntry.init exampleNameServer ⟨6, []⟩ = .error (.InvalidParamException
      "LgHaveDictEntry: Expecting two arguments, got 0") ∧
    LGDictEntry.LGDictEntry exampleNameServer [] 5 = .error (.InvalidParamException
      "LgDictEntry: Expecting two arguments, got 0") ∧
    LGHaveDictEntry.LGHaveDictEntry exampleNameServer [] 6 = .error (.InvalidParamException
      "LgHaveDictEntry: Expecting two arguments, got 0") ∧
    (LGDictEntry.execute exampleNameServer exampleDict listSpace ⟨5, []⟩ [] false).1 =
      .error .OutOfRange := by
  refine ⟨rfl, rfl, ?_, ?_, rfl, rfl, rfl, rfl, rfl⟩
  · rintro ⟨a0, a1, h, -⟩
    simp at h
  · rintro ⟨a0, a1, h, -⟩
    simp at h

/-! ## Evaluation -/

/-- The loop adds the atoms from left to right. -/
theorem add_atoms_eq_foldl {S : Type} (sp : AtomSpace S) (djs : HandleSeq) (as : S) :
    add_atoms sp djs as = List.foldl sp.add_atom as djs := by
  induction djs generalizing as with
  | nil => rfl
  | cons dj djs ih => simp [add_atoms, ih]

/-- On the recording AtomSpace the loop appends the atoms to the record, in order. -/
theorem add_atoms_recording (djs log : HandleSeq) :
    add_atoms recordingSpace djs log = log ++ djs := by
  induction djs generalizing log with
  | nil => simp [add_atoms]
  | cons dj djs ih =>
    show add_atoms recordingSpace djs (log ++ [dj]) = log ++ dj :: djs
    rw [ih]; simp

/-- The loop keeps every atom when each single `add_atom` does. -/
theorem add_atoms_keeps {S : Type} (sp : AtomSpace S) (holds : S → Handle → Prop)
    (hkeep : ∀ s h dj, holds s h → holds (sp.add_atom s dj) h)
    (djs : HandleSeq) (as : S) (h : Handle) (hin : holds as h) :
    holds (add_atoms sp djs as) h := by
  induction djs generalizing as with
  | nil => exact hin
  | cons dj djs ih => exact ih (sp.add_atom as dj) (hkeep as h dj hin)

/-- `execute` on a link with at least two arguments, as a case split. -/
theorem LGDictEntry_execute_eq {S : Type} (ns : NameServer) (ds : DictService)
    (sp : AtomSpace S) (t : AtomType) (a0 a1 : Handle) (rest : HandleSeq) (as : S)
    (silent : Bool) :
    LGDictEntry.execute ns ds sp ⟨t, a0 :: a1 :: rest⟩ as silent =
      if ns.WORD_NODE ≠ a0.type ∨ ns.LG_DICT_NODE ≠ a1.type then
        if silent then (.error .SilentException, as)
        else (.error (.InvalidParamException
          ("LgDictEntry: Expecting WordNode, got " ++ a0.to_string)), as)
      else
        match ds.get_dictionary a1 with
        | none => (.error (.InvalidParamException
            ("LgDictEntry requires valid dictionary! " ++ a1.name ++ " was given.")), as)
        | some dict => (.ok a0, add_atoms sp (ds.getDictEntry dict a0.name) as) := by
  by_cases h0 : ns.WORD_NODE = a0.type <;> by_cases h1 : ns.LG_DICT_NODE = a1.type <;>
    simp [LGDictEntry.execute, subscript, h0, h1]

/-- `evaluate` on a link with at least two arguments, as a case split. -/
theorem LGHaveDictEntry_evaluate_eq {S : Type} (ns : NameServer) (ds : DictService)
    (t : AtomType) (a0 a1 : Handle) (rest : HandleSeq) (as : S) (silent : Bool) :
    LGHaveDictEntry.evaluate ns ds ⟨t, a0 :: a1 :: rest⟩ as silent =
      if ns.WORD_NODE ≠ a0.type ∨ ns.LG_DICT_NODE ≠ a1.type then
        if silent then (.error .SilentException, as)
        else (.error (.InvalidParamException
          ("LgHaveDictEntry: Expecting WordNode, got " ++ a0.to_string)), as)
      else
        match ds.get_dictionary a1 with
        | none => (.error (.InvalidParamException
            ("LgDictEntry requires valid dictionary! " ++ a1.name ++ " was given.")), as)
        | some dict =>
          if ds.haveDictEntry dict a0.name then (.ok .TRUE_TV, as) else (.ok .FALSE_TV, as) := by
  by_cases h0 : ns.WORD_NODE = a0.type <;> by_cases h1 : ns.LG_DICT_NODE = a1.type <;>
    simp [LGHaveDictEntry.evaluate, subscript, h0, h1]

/-- `execute` on a word and a dictionary node whose dictionary opens. -/
theorem LGDictEntry_execute_valid {S : Type} (ns : NameServer) (ds : DictService)
    (sp : AtomSpace S) (t : AtomType) (a0 a1 : Handle) (rest : HandleSeq) (as : S)
    (silent : Bool) (dict : Dictionary)
    (h0 : a0.type = ns.WORD_NODE) (h1 : a1.type = ns.LG_DICT_NODE)
    (hd : ds.get_dictionary a1 = some dict) :
    LGDictEntry.execute ns ds sp ⟨t, a0 :: a1 :: rest⟩ as silent =
      (.ok a0, add_atoms sp (ds.getDictEntry dict a0.name) as) := by
  have hc : ¬ (ns.WORD_NODE ≠ a0.type ∨ ns.LG_DICT_NODE ≠ a1.type) := by
    simp [h0, h1]
  rw [LGDictEntry_execute_eq, if_neg hc, hd]

/-- C5: for both call kinds, with `silent` off, evaluating a two-argument call
node whose argument 0 is not tagged `WORD_NODE` or whose argument 1 is not
tagged `LG_DICT_NODE` throws `InvalidParamException` and returns no value (and
leaves the AtomSpace as it was), also when the node passed construction. -/
theorem evaluation_type_mismatch_hard {S : Type} (ns : NameServer) (ds : DictService)
    (sp : AtomSpace S) (t : AtomType) (a0 a1 : Handle) (as : S)
    (h : a0.type ≠ ns.WORD_NODE ∨ a1.type ≠ ns.LG_DICT_NODE) :
    LGDictEntry.execute ns ds sp ⟨t, [a0, a1]⟩ as false =
      (.error (.InvalidParamException
        ("LgDictEntry: Expecting WordNode, got " ++ a0.to_string)), as) ∧
    LGHaveDictEntry.evaluate ns ds ⟨t, [a0, a1]⟩ as false =
      (.error (.InvalidParamException
        ("LgHaveDictEntry: Expecting WordNode, got " ++ a0.to_string)), as) := by
  have hc : ns.WORD_NODE ≠ a0.type ∨ ns.LG_DICT_NODE ≠ a1.type :=
    h.imp (fun x e => x e.symm) (fun x e => x e.symm)
  rw [LGDictEntry_execute_eq, LGHaveDictEntry_evaluate_eq, if_pos hc, if_pos hc]
  simp

/-- C5 at a node built with a variable in position 0: construction succeeds
for both kinds, evaluation with `silent` off throws. -/
theorem evaluation_type_mismatch_hard_witness :
    (variableX.type ≠ exampleNameServer.WORD_NODE ∨
      dictEn.type ≠ exampleNameServer.LG_DICT_NODE) ∧
    LGDictEntry.LGDictEntry exampleNameServer [variableX, dictEn] 5 =
      .ok ⟨5, [variableX, dictEn]⟩ ∧
    LGHaveDictEntry.LGHaveDictEntry exampleNameServer [variableX, dictEn] 6 =
      .ok ⟨6, [variableX, dictEn]⟩ ∧
    (LGDictEntry.execute exampleNameServer exampleDict listSpace
        ⟨5, [variableX, dictEn]⟩ [wordCat] false =
      (.error (.InvalidParamException
        ("LgDictEntry: Expecting WordNode, got " ++ variableX.to_string)), [wordCat]) ∧
    LGHaveDictEntry.evaluate exampleNameServer exampleDict
        ⟨5, [variableX, dictEn]⟩ [wordCat] false =
      (.error (.InvalidParamException
        ("LgHaveDictEntry: Expecting WordNode, got " ++ variableX.to_string)), [wordCat])) :=
  ⟨by decide, rfl, rfl,
    evaluation_type_mismatch_hard exampleNameServer exampleDict listSpace 5 variableX dictEn
      [wordCat] (by decide)⟩

/-- C6: for both call kinds, with `silent` on, evaluating a two-argument call
node whose argument 0 is not tagged `WORD_NODE` or whose argument 1 is not
tagged `LG_DICT_NODE` throws `SilentException` (leaving the AtomSpace as it
was); that outcome is no returned value and no `InvalidParamException`. -/
theorem evaluation_type_mismatch_silent {S : Type} (ns : NameServer) (ds : DictService)
    (sp : AtomSpace S) (t : AtomType) (a0 a1 : Handle) (as : S)
    (h : a0.type ≠ ns.WORD_NODE ∨ a1.type ≠ ns.LG_DICT_NODE) :
    LGDictEntry.execute ns ds sp ⟨t, [a0, a1]⟩ as true = (.error .SilentException, as) ∧
    LGHaveDictEntry.evaluate ns ds ⟨t, [a0, a1]⟩ as true = (.error .SilentException, as) ∧
    (∀ v, (LGDictEntry.execute ns ds sp ⟨t, [a0, a1]⟩ as true).1 ≠ .ok v) ∧
    (∀ msg, (LGDictEntry.execute ns ds sp ⟨t, [a0, a1]⟩ as true).1 ≠
      .error (.InvalidParamException msg)) ∧
    (∀ tv, (LGHaveDictEntry.evaluate ns ds ⟨t, [a0, a1]⟩ as true).1 ≠ .ok tv) ∧
    (∀ msg, (LGHaveDictEntry.evaluate ns ds ⟨t, [a0, a1]⟩ as true).1 ≠
      .error (.InvalidParamException msg)) := by
  have hc : ns.WORD_NODE ≠ a0.type ∨ ns.LG_DICT_NODE ≠ a1.type :=
    h.imp (fun x e => x e.symm) (fun x e => x e.symm)
  rw [LGDictEntry_execute_eq, LGHaveDictEntry_evaluate_eq, if_pos hc, if_pos hc]
  simp

/-- C6 at a number in position 0 (a variable bound to a number by evaluation time). -/
theorem evaluation_type_mismatch_silent_witness :
    (number42.type ≠ exampleNameServer.WORD_NODE ∨
      dictEn.type ≠ exampleNameServer.LG_DICT_NODE) ∧
    (LGDictEntry.execute exampleNameServer exampleDict listSpace
        ⟨5, [number42, dictEn]⟩ [wordCat] true = (.error .SilentException, [wordCat]) ∧
    LGHaveDictEntry.evaluate exampleNameServer exampleDict
        ⟨5, [number42, dictEn]⟩ [wordCat] true = (.error .SilentException, [wordCat]) ∧
    (∀ v, (LGDictEntry.execute exampleNameServer exampleDict listSpace
        ⟨5, [number42, dictEn]⟩ [wordCat] true).1 ≠ .ok v) ∧
    (∀ msg, (LGDictEntry.execute exampleNameServer exampleDict listSpace
        ⟨5, [number42, dictEn]⟩ [wordCat] true).1 ≠ .error (.InvalidParamException msg)) ∧
    (∀ tv, (LGHaveDictEntry.evaluate exampleNameServer exampleDict
        ⟨5, [number42, dictEn]⟩ [wordCat] true).1 ≠ .ok tv) ∧
    (∀ msg, (LGHaveDictEntry.evaluate exampleNameServer exampleDict
        ⟨5, [number42, dictEn]⟩ [wordCat] true).1 ≠ .error (.InvalidParamException msg))) :=
  ⟨by decide,
    evaluation_type_mismatch_silent exampleNameServer exampleDict listSpace 5 number42 dictEn
      [wordCat] (by decide)⟩

/-- C7: for both call kinds and both values of `silent`, when argument 0 is
tagged `WORD_NODE`, argument 1 is tagged `LG_DICT_NODE` and its dictionary is
`nullptr`, evaluation throws the `InvalidParamException` naming the
dictionary node: no `SilentException`, no value, and the AtomSpace is as it
was (nothing inserted by Lookup). -/
theorem missing_dictionary_hard {S : Type} (ns : NameServer) (ds : DictService)
    (sp : AtomSpace S) (t : AtomType) (a0 a1 : Handle) (as : S) (silent : Bool)
    (h0 : a0.type = ns.WORD_NODE) (h1 : a1.type = ns.LG_DICT_NODE)
    (hd : ds.get_dictionary a1 = none) :
    LGDictEntry.execute ns ds sp ⟨t, [a0, a1]⟩ as silent =
      (.error (.InvalidParamException
        ("LgDictEntry requires valid dictionary! " ++ a1.name ++ " was given.")), as) ∧
    LGHaveDictEntry.evaluate ns ds ⟨t, [a0, a1]⟩ as silent =
      (.error (.InvalidParamException
        ("LgDictEntry requires valid dictionary! " ++ a1.name ++ " was given.")), as) ∧
    (LGDictEntry.execute ns ds sp ⟨t, [a0, a1]⟩ as silent).1 ≠ .error .SilentException ∧
    (LGHaveDictEntry.evaluate ns ds ⟨t, [a0, a1]⟩ as silent).1 ≠ .error .SilentException ∧
    (∀ v, (LGDictEntry.execute ns ds sp ⟨t, [a0, a1]⟩ as silent).1 ≠ .ok v) ∧
    (∀ tv, (LGHaveDictEntry.evaluate ns ds ⟨t, [a0, a1]⟩ as silent).1 ≠ .ok tv) := by
  have hc : ¬ (ns.WORD_NODE ≠ a0.type ∨ ns.LG_DICT_NODE ≠ a1.type) := by
    simp [h0, h1]
  rw [LGDictEntry_execute_eq, LGHaveDictEntry_evaluate_eq, if_neg hc, if_neg hc, hd]
  simp

/-- C7 at the word "cat" and the dictionary node "xx", which opens no
dictionary, in silent mode, on the recording AtomSpace. -/
theorem missing_dictionary_hard_witness :
    (wordCat.type = exampleNameServer.WORD_NODE ∧
      dictXx.type = exampleNameServer.LG_DICT_NODE ∧
      exampleDict.get_dictionary dictXx = none) ∧
    (LGDictEntry.execute exampleNameServer exampleDict recordingSpace
        ⟨5, [wordCat, dictXx]⟩ [] true =
      (.error (.InvalidParamException
        ("LgDictEntry requires valid dictionary! " ++ dictXx.name ++ " was given.")), []) ∧
    LGHaveDictEntry.evaluate exampleNameServer exampleDict ⟨5, [wordCat, dictXx]⟩
        ([] : List Atom) true =
      (.error (.InvalidParamException
        ("LgDictEntry requires valid dictionary! " ++ dictXx.name ++ " was given.")), []) ∧
    (LGDictEntry.execute exampleNameServer exampleDict recordingSpace
        ⟨5, [wordCat, dictXx]⟩ [] true).1 ≠ .error .SilentException ∧
    (LGHaveDictEntry.evaluate exampleNameServer exampleDict
        ⟨5, [wordCat, dictXx]⟩ ([] : List Atom) true).1 ≠ .error .SilentException ∧
    (∀ v, (LGDictEntry.execute exampleNameServer exampleDict recordingSpace
        ⟨5, [wordCat, dictXx]⟩ [] true).1 ≠ .ok v) ∧
    (∀ tv, (LGHaveDictEntry.evaluate exampleNameServer exampleDict
        ⟨5, [wordCat, dictXx]⟩ ([] : List Atom) true).1 ≠ .ok tv)) :=
  ⟨by decide,
    missing_dictionary_hard exampleNameServer exampleDict recordingSpace 5 wordCat dictXx []
      true (by decide) (by decide) (by decide)⟩

/-- C8: `LGHaveDictEntry::evaluate` never changes the AtomSpace: for every
AtomSpace, every link, every dictionary service and both values of `silent`,
the AtomSpace after the call is the one before it, whatever the call returns
or throws. -/
theorem evaluate_leaves_atomspace {S : Type} (ns : NameServer) (ds : DictService)
    (self : Link) (as : S) (silent : Bool) :
    (LGHaveDictEntry.evaluate ns ds self as silent).2 = as := by
  unfold LGHaveDictEntry.evaluate
  cases subscript self.outgoing 0 with
  | error e => rfl
  | ok a0 =>
    cases subscript self.outgoing 1 with
    | error e => dsimp only; split_ifs <;> rfl
    | ok a1 =>
      dsimp only
      cases ds.get_dictionary a1 <;> dsimp only <;> split_ifs <;> rfl

/-- C9: when argument 0 is tagged `WORD_NODE` and argument 1 is tagged
`LG_DICT_NODE` with a dictionary that is not `nullptr`, `execute` returns
argument 0 itself, for both values of `silent`; and over an AtomSpace whose
`add_atom` keeps the atoms it holds, every atom held before the call is held
after it. -/
theorem execute_returns_word_and_keeps_atoms {S : Type} (ns : NameServer) (ds : DictService)
    (sp : AtomSpace S) (holds : S → Handle → Prop) (t : AtomType) (a0 a1 : Handle) (as : S)
    (silent : Bool) (dict : Dictionary)
    (h0 : a0.type = ns.WORD_NODE) (h1 : a1.type = ns.LG_DICT_NODE)
    (hd : ds.get_dictionary a1 = some dict)
    (hkeep : ∀ s h dj, holds s h → holds (sp.add_atom s dj) h) :
    (LGDictEntry.execute ns ds sp ⟨t, [a0, a1]⟩ as silent).1 = .ok a0 ∧
    ∀ h, holds as h → holds (LGDictEntry.execute ns ds sp ⟨t, [a0, a1]⟩ as silent).2 h := by
  rw [LGDictEntry_execute_valid ns ds sp t a0 a1 [] as silent dict h0 h1 hd]
  exact ⟨rfl, fun h hin => add_atoms_keeps sp holds hkeep _ as h hin⟩

/-- C9 at "cat" in the dictionary "en", on the list AtomSpace holding "zzzqx". -/
theorem execute_returns_word_and_keeps_atoms_witness :
    (wordCat.type = exampleNameServer.WORD_NODE ∧
      dictEn.type = exampleNameServer.LG_DICT_NODE ∧
      exampleDict.get_dictionary dictEn = some 1) ∧
    ((LGDictEntry.execute exampleNameServer exampleDict listSpace
        ⟨5, [wordCat, dictEn]⟩ [wordZzzqx] false).1 = .ok wordCat ∧
    ∀ h, h ∈ [wordZzzqx] → h ∈ (LGDictEntry.execute exampleNameServer exampleDict listSpace
        ⟨5, [wordCat, dictEn]⟩ [wordZzzqx] false).2) :=
  ⟨by decide,
    execute_returns_word_and_keeps_atoms exampleNameServer exampleDict listSpace
      (fun s h => h ∈ s) 5 wordCat dictEn [wordZzzqx] false 1 (by decide) (by decide)
      (by decide)
      (by
        intro s h dj hin
        show h ∈ (if dj ∈ s then s else s ++ [dj])
        split
        · exact hin
        · exact List.mem_append_left _ hin)⟩

/-- C10: in a valid Lookup evaluation the `add_atom` calls are exactly the
entries `getDictEntry` returned for the name of argument 0, one call per
entry, in that order: the recording AtomSpace ends as its record followed by
those entries, and any AtomSpace ends as the left fold of `add_atom` over
them; when the dictionary returns no entry the AtomSpace is unchanged and
argument 0 is still returned. -/
theorem execute_inserts_exactly_entries {S : Type} (ns : NameServer) (ds : DictService)
    (sp : AtomSpace S) (t : AtomType) (a0 a1 : Handle) (as : S) (log : HandleSeq)
    (silent : Bool) (dict : Dictionary)
    (h0 : a0.type = ns.WORD_NODE) (h1 : a1.type = ns.LG_DICT_NODE)
    (hd : ds.get_dictionary a1 = some dict) :
    (LGDictEntry.execute ns ds recordingSpace ⟨t, [a0, a1]⟩ log silent).2 =
      log ++ ds.getDictEntry dict a0.name ∧
    (LGDictEntry.execute ns ds sp ⟨t, [a0, a1]⟩ as silent).2 =
      List.foldl sp.add_atom as (ds.getDictEntry dict a0.name) ∧
    (LGDictEntry.execute ns ds sp ⟨t, [a0, a1]⟩ as silent).1 = .ok a0 ∧
    (ds.getDictEntry dict a0.name = [] →
      LGDictEntry.execute ns ds sp ⟨t, [a0, a1]⟩ as silent = (.ok a0, as)) := by
  rw [LGDictEntry_execute_valid ns ds sp t a0 a1 [] as silent dict h0 h1 hd,
    LGDictEntry_execute_valid ns ds recordingSpace t a0 a1 [] log silent dict h0 h1 hd]
  refine ⟨add_atoms_recording _ _, add_atoms_eq_foldl _ _ _, rfl, ?_⟩
  intro hnil
  simp [hnil, add_atoms]

/-- C10 at the unknown word "zzzqx" in the dictionary "en". -/
theorem execute_inserts_exactly_entries_witness :
    (wordZzzqx.type = exampleNameServer.WORD_NODE ∧
      dictEn.type = exampleNameServer.LG_DICT_NODE ∧
      exampleDict.get_dictionary dictEn = some 1) ∧
    ((LGDictEntry.execute exampleNameServer exampleDict recordingSpace
        ⟨5, [wordZzzqx, dictEn]⟩ [] false).2 =
      [] ++ exampleDict.getDictEntry 1 wordZzzqx.name ∧
    (LGDictEntry.execute exampleNameServer exampleDict listSpace
        ⟨5, [wordZzzqx, dictEn]⟩ [wordCat] false).2 =
      List.foldl listSpace.add_atom [wordCat] (exampleDict.getDictEntry 1 wordZzzqx.name) ∧
    (LGDictEntry.execute exampleNameServer exampleDict listSpace
        ⟨5, [wordZzzqx, dictEn]⟩ [wordCat] false).1 = .ok wordZzzqx ∧
    (exampleDict.getDictEntry 1 wordZzzqx.name = [] →
      LGDictEntry.execute exampleNameServer exampleDict listSpace
        ⟨5, [wordZzzqx, dictEn]⟩ [wordCat] false = (.ok wordZzzqx, [wordCat]))) :=
  ⟨by decide,
    execute_inserts_exactly_entries exampleNameServer exampleDict listSpace 5 wordZzzqx dictEn
      [wordCat] [] false 1 (by decide) (by decide) (by decide)⟩

/-- `evaluate` on a word and a dictionary node whose dictionary opens. -/
theorem LGHaveDictEntry_evaluate_valid {S : Type} (ns : NameServer) (ds : DictService)
    (t : AtomType) (a0 a1 : Handle) (rest : HandleSeq) (as : S) (silent : Bool)
    (dict : Dictionary) (h0 : a0.type = ns.WORD_NODE) (h1 : a1.type = ns.LG_DICT_NODE)
    (hd : ds.get_dictionary a1 = some dict) :
    LGHaveDictEntry.evaluate ns ds ⟨t, a0 :: a1 :: rest⟩ as silent =
      (.ok (if ds.haveDictEntry dict a0.name then .TRUE_TV else .FALSE_TV), as) := by
  have hc : ¬ (ns.WORD_NODE ≠ a0.type ∨ ns.LG_DICT_NODE ≠ a1.type) := by
    simp [h0, h1]
  rw [LGHaveDictEntry_evaluate_eq, if_neg hc, hd]
  by_cases hv : ds.haveDictEntry dict a0.name = true <;> simp [hv]

/-- C11: when argument 0 is tagged `WORD_NODE` and argument 1 is tagged
`LG_DICT_NODE` with a dictionary that is not `nullptr`, `evaluate` returns
`TRUE_TV` exactly when `haveDictEntry` answers true for the name of argument 0
and `FALSE_TV` exactly when it answers false; the value is the same for every
AtomSpace and both values of `silent`. -/
theorem evaluate_answers_have_dict_entry {S S2 : Type} (ns : NameServer) (ds : DictService)
    (t : AtomType) (a0 a1 : Handle) (as : S) (as2 : S2) (silent silent2 : Bool)
    (dict : Dictionary) (h0 : a0.type = ns.WORD_NODE) (h1 : a1.type = ns.LG_DICT_NODE)
    (hd : ds.get_dictionary a1 = some dict) :
    ((LGHaveDictEntry.evaluate ns ds ⟨t, [a0, a1]⟩ as silent).1 = .ok .TRUE_TV ↔
      ds.haveDictEntry dict a0.name = true) ∧
    ((LGHaveDictEntry.evaluate ns ds ⟨t, [a0, a1]⟩ as silent).1 = .ok .FALSE_TV ↔
      ds.haveDictEntry dict a0.name = false) ∧
    (LGHaveDictEntry.evaluate ns ds ⟨t, [a0, a1]⟩ as2 silent2).1 =
      (LGHaveDictEntry.evaluate ns ds ⟨t, [a0, a1]⟩ as silent).1 := by
  rw [LGHaveDictEntry_evaluate_valid ns ds t a0 a1 [] as silent dict h0 h1 hd,
    LGHaveDictEntry_evaluate_valid ns ds t a0 a1 [] as2 silent2 dict h0 h1 hd]
  cases ds.haveDictEntry dict a0.name <;> simp

/-- C11 at the known word "cat" in the dictionary "en". -/
theorem evaluate_answers_have_dict_entry_witness :
    (wordCat.type = exampleNameServer.WORD_NODE ∧
      dictEn.type = exampleNameServer.LG_DICT_NODE ∧
      exampleDict.get_dictionary dictEn = some 1) ∧
    (((LGHaveDictEntry.evaluate exampleNameServer exampleDict ⟨6, [wordCat, dictEn]⟩
        [wordZzzqx] false).1 = .ok .TRUE_TV ↔
      exampleDict.haveDictEntry 1 wordCat.name = true) ∧
    ((LGHaveDictEntry.evaluate exampleNameServer exampleDict ⟨6, [wordCat, dictEn]⟩
        [wordZzzqx] false).1 = .ok .FALSE_TV ↔
      exampleDict.haveDictEntry 1 wordCat.name = false) ∧
    (LGHaveDictEntry.evaluate exampleNameServer exampleDict ⟨6, [wordCat, dictEn]⟩
        () true).1 =
      (LGHaveDictEntry.evaluate exampleNameServer exampleDict ⟨6, [wordCat, dictEn]⟩
        [wordZzzqx] false).1) :=
  ⟨by decide,
    evaluate_answers_have_dict_entry exampleNameServer exampleDict 6 wordCat dictEn
      [wordZzzqx] () false true 1 (by decide) (by decide) (by decide)⟩

/-- C12 (as stated, refuted): a Lookup and an Existence link with three
arguments, the first two a word and an opening dictionary node, are evaluated
with `silent` off without any exception: Lookup returns the word and adds the
entries, Existence returns `TRUE_TV`; yet `init` rejects these argument lists. -/
theorem evaluation_skips_arity_check :
    [wordCat, dictEn, number42].length ≠ 2 ∧
    LGDictEntry.execute exampleNameServer exampleDict listSpace
        ⟨5, [wordCat, dictEn, number42]⟩ [] false = (.ok wordCat, [entryCat1, entryCat2]) ∧
    LGHaveDictEntry.evaluate exampleNameServer exampleDict
        ⟨6, [wordCat, dictEn, number42]⟩ ([] : List Atom) false = (.ok .TRUE_TV, []) ∧
    LGDictEntry.init exampleNameServer ⟨5, [wordCat, dictEn, number42]⟩ =
      .error (.InvalidParamException "LgDictEntry: Expecting two arguments, got 3") ∧
    LGHaveDictEntry.init exampleNameServer ⟨6, [wordCat, dictEn, number42]⟩ =
      .error (.InvalidParamException "LgHaveDictEntry: Expecting two arguments, got 3") := by
  refine ⟨by decide, rfl, rfl, rfl, rfl⟩

/-- C12 (amended): evaluation re-checks only the concrete types of arguments 0
and 1, not the arity: for both call kinds, both values of `silent` and every
link with at least two arguments, evaluation is what it is on the first two
arguments alone, the further arguments being ignored; so it throws
`InvalidParamException` with `silent` off exactly on a type mismatch of those
two or a `nullptr` dictionary, and then leaves the AtomSpace as it was. -/
theorem evaluation_checks_first_two_only {S : Type} (ns : NameServer) (ds : DictService)
    (sp : AtomSpace S) (t : AtomType) (a0 a1 : Handle) (rest : HandleSeq) (as : S)
    (silent : Bool) :
    LGDictEntry.execute ns ds sp ⟨t, a0 :: a1 :: rest⟩ as silent =
      LGDictEntry.execute ns ds sp ⟨t, [a0, a1]⟩ as silent ∧
    LGHaveDictEntry.evaluate ns ds ⟨t, a0 :: a1 :: rest⟩ as silent =
      LGHaveDictEntry.evaluate ns ds ⟨t, [a0, a1]⟩ as silent ∧
    ((∃ msg, (LGDictEntry.execute ns ds sp ⟨t, a0 :: a1 :: rest⟩ as false).1 =
        .error (.InvalidParamException msg)) ↔
      (a0.type ≠ ns.WORD_NODE ∨ a1.type ≠ ns.LG_DICT_NODE ∨ ds.get_dictionary a1 = none)) ∧
    ((∃ msg, (LGHaveDictEntry.evaluate ns ds ⟨t, a0 :: a1 :: rest⟩ as false).1 =
        .error (.InvalidParamException msg)) ↔
      (a0.type ≠ ns.WORD_NODE ∨ a1.type ≠ ns.LG_DICT_NODE ∨ ds.get_dictionary a1 = none)) ∧
    ((∃ e, (LGDictEntry.execute ns ds sp ⟨t, a0 :: a1 :: rest⟩ as silent).1 = .error e) →
      (LGDictEntry.execute ns ds sp ⟨t, a0 :: a1 :: rest⟩ as silent).2 = as) := by
  refine ⟨?_, ?_, ?_, ?_, ?_⟩
  · rw [LGDictEntry_execute_eq, LGDictEntry_execute_eq]
  · rw [LGHaveDictEntry_evaluate_eq, LGHaveDictEntry_evaluate_eq]
  · rw [LGDictEntry_execute_eq]
    by_cases hc : ns.WORD_NODE ≠ a0.type ∨ ns.LG_DICT_NODE ≠ a1.type
    · have hm : a0.type ≠ ns.WORD_NODE ∨ a1.type ≠ ns.LG_DICT_NODE :=
        hc.imp (fun x e => x e.symm) (fun x e => x e.symm)
      rw [if_pos hc]
      constructor
      · intro _
        rcases hm with hm | hm
        · exact Or.inl hm
        · exact Or.inr (Or.inl hm)
      · intro _
        exact ⟨_, rfl⟩
    · rw [if_neg hc]
      push_neg at hc
      cases hd : ds.get_dictionary a1 with
      | none => exact ⟨fun _ => Or.inr (Or.inr rfl), fun _ => ⟨_, rfl⟩⟩
      | some dict =>
        constructor
        · rintro ⟨msg, hmsg⟩
          simp at hmsg
        · rintro (hm | hm | hm)
          · exact absurd hc.1.symm hm
          · exact absurd hc.2.symm hm
          · simp at hm
  · rw [LGHaveDictEntry_evaluate_eq]
    by_cases hc : ns.WORD_NODE ≠ a0.type ∨ ns.LG_DICT_NODE ≠ a1.type
    · have hm : a0.type ≠ ns.WORD_NODE ∨ a1.type ≠ ns.LG_DICT_NODE :=
        hc.imp (fun x e => x e.symm) (fun x e => x e.symm)
      rw [if_pos hc]
      constructor
      · intro _
        rcases hm with hm | hm
        · exact Or.inl hm
        · exact Or.inr (Or.inl hm)
      · intro _
        exact ⟨_, rfl⟩
    · rw [if_neg hc]
      push_neg at hc
      cases hd : ds.get_dictionary a1 with
      | none => exact ⟨fun _ => Or.inr (Or.inr rfl), fun _ => ⟨_, rfl⟩⟩
      | some dict =>
        constructor
        · rintro ⟨msg, hmsg⟩
          exfalso
          revert hmsg
          dsimp only
          split_ifs <;> simp
        · rintro (hm | hm | hm)
          · exact absurd hc.1.symm hm
          · exact absurd hc.2.symm hm
          · simp at hm
  · rw [LGDictEntry_execute_eq]
    by_cases hc : ns.WORD_NODE ≠ a0.type ∨ ns.LG_DICT_NODE ≠ a1.type
    · rw [if_pos hc]; cases silent <;> simp
    · rw [if_neg hc]; cases hd : ds.get_dictionary a1 <;> simp

/-! ## The shape check against its specification -/

/-- The condition `init` tests on a tag is the negation of membership in the allowed set. -/
theorem not_allowed_iff (x a b c : AtomType) :
    (a ≠ x ∧ b ≠ x ∧ c ≠ x) ↔ ¬ (x = a ∨ x = b ∨ x = c) := by
  constructor
  · rintro ⟨ha, hb, hc⟩ (h | h | h)
    · exact ha h.symm
    · exact hb h.symm
    · exact hc h.symm
  · intro h
    exact ⟨fun e => h (Or.inl e.symm), fun e => h (Or.inr (Or.inl e.symm)),
      fun e => h (Or.inr (Or.inr e.symm))⟩

/-- The validator of the specification on a list that does not have two elements. -/
theorem validate_arity (ns : NameServer) (kind : String) (arguments : HandleSeq)
    (h : arguments.length ≠ 2) :
    validate ns kind arguments = .error (.InvalidParamException
      (kind ++ ": Expecting two arguments, got " ++ toString arguments.length)) := by
  match arguments, h with
  | [], _ => rfl
  | [_], _ => rfl
  | [_, _], h => exact absurd rfl h
  | _ :: _ :: _ :: _, _ => rfl

/-- `LGDictEntry::init` is the validator of the specification at kind "LgDictEntry". -/
theorem LGDictEntry_init_eq_validate (ns : NameServer) (l : Link) :
    LGDictEntry.init ns l = validate ns "LgDictEntry" l.outgoing := by
  obtain ⟨t, oset⟩ := l
  by_cases hlen : oset.length = 2
  · obtain ⟨a0, a1, rfl⟩ := List.length_eq_two.mp hlen
    rw [LGDictEntry_init_pair]
    simp only [validate, not_allowed_iff]
    rfl
  · rw [LGDictEntry_init_arity ns t oset hlen, validate_arity ns _ oset hlen]
    rfl

/-- `LGHaveDictEntry::init` is the validator of the specification at kind "LgHaveDictEntry". -/
theorem LGHaveDictEntry_init_eq_validate (ns : NameServer) (l : Link) :
    LGHaveDictEntry.init ns l = validate ns "LgHaveDictEntry" l.outgoing := by
  obtain ⟨t, oset⟩ := l
  by_cases hlen : oset.length = 2
  · obtain ⟨a0, a1, rfl⟩ := List.length_eq_two.mp hlen
    rw [LGHaveDictEntry_init_pair]
    simp only [validate, not_allowed_iff]
    rfl
  · rw [LGHaveDictEntry_init_arity ns t oset hlen, validate_arity ns _ oset hlen]
    rfl

/-- The validator of the specification accepts exactly the links with the shape invariant. -/
theorem validate_ok_iff_shape (ns : NameServer) (kind : String) (l : Link) :
    validate ns kind l.outgoing = .ok () ↔ ShapeInvariant ns l := by
  obtain ⟨t, oset⟩ := l
  by_cases hlen : oset.length = 2
  · obtain ⟨a0, a1, rfl⟩ := List.length_eq_two.mp hlen
    simp only [validate]
    constructor
    · intro h
      split_ifs at h with h0 h1
      exact ⟨a0, a1, rfl, h0, h1⟩
    · rintro ⟨b0, b1, hb, h0, h1⟩
      simp only [List.cons.injEq, and_true] at hb
      obtain ⟨rfl, rfl⟩ := hb
      rw [if_neg (not_not.mpr h0), if_neg (not_not.mpr h1)]
  · rw [validate_arity ns kind oset hlen]
    constructor
    · intro h
      simp at h
    · rintro ⟨b0, b1, hb, -⟩
      simp only at hb
      exact absurd (by rw [hb]; rfl) hlen

/-- C13: the two shape checks are one rule: `LGDictEntry::init` and
`LGHaveDictEntry::init` are the validator of the specification, called with
the kind names "LgDictEntry" and "LgHaveDictEntry" (which only appear in the
message); each succeeds exactly on the links with two arguments, argument 0
tagged Word, Variable or Glob and argument 1 tagged LgDictNode, Variable or
Glob, and so one succeeds exactly when the other does. -/
theorem init_is_the_shape_rule (ns : NameServer) (l : Link) :
    LGDictEntry.init ns l = validate ns "LgDictEntry" l.outgoing ∧
    LGHaveDictEntry.init ns l = validate ns "LgHaveDictEntry" l.outgoing ∧
    (LGDictEntry.init ns l = .ok () ↔ ShapeInvariant ns l) ∧
    (LGHaveDictEntry.init ns l = .ok () ↔ ShapeInvariant ns l) ∧
    (LGDictEntry.init ns l = .ok () ↔ LGHaveDictEntry.init ns l = .ok ()) := by
  have hL := LGDictEntry_init_eq_validate ns l
  have hH := LGHaveDictEntry_init_eq_validate ns l
  have sL := validate_ok_iff_shape ns "LgDictEntry" l
  have sH := validate_ok_iff_shape ns "LgHaveDictEntry" l
  refine ⟨hL, hH, ?_, ?_, ?_⟩
  · rw [hL]; exact sL
  · rw [hH]; exact sH
  · rw [hL, hH]; exact sL.trans sH.symm

/-! ## Lookup against Existence, and the error texts -/

/-- C14: on the same two arguments, dictionary service and `silent` flag,
`execute` throws exactly when `evaluate` throws, and they fail alike: both with
the hard type error (with `silent` off), both with `SilentException`, or both
with the same missing-dictionary `InvalidParamException`; otherwise both
return a value. -/
theorem execute_and_evaluate_fail_alike {S : Type} (ns : NameServer) (ds : DictService)
    (sp : AtomSpace S) (tL tH : AtomType) (a0 a1 : Handle) (as : S) (silent : Bool) :
    ((∃ e, (LGDictEntry.execute ns ds sp ⟨tL, [a0, a1]⟩ as silent).1 = .error e) ↔
      (∃ e, (LGHaveDictEntry.evaluate ns ds ⟨tH, [a0, a1]⟩ as silent).1 = .error e)) ∧
    ((silent = false ∧
        (LGDictEntry.execute ns ds sp ⟨tL, [a0, a1]⟩ as silent).1 =
          .error (.InvalidParamException
            ("LgDictEntry: Expecting WordNode, got " ++ a0.to_string)) ∧
        (LGHaveDictEntry.evaluate ns ds ⟨tH, [a0, a1]⟩ as silent).1 =
          .error (.InvalidParamException
            ("LgHaveDictEntry: Expecting WordNode, got " ++ a0.to_string))) ∨
      (silent = true ∧
        (LGDictEntry.execute ns ds sp ⟨tL, [a0, a1]⟩ as silent).1 = .error .SilentException ∧
        (LGHaveDictEntry.evaluate ns ds ⟨tH, [a0, a1]⟩ as silent).1 =
          .error .SilentException) ∨
      ((LGDictEntry.execute ns ds sp ⟨tL, [a0, a1]⟩ as silent).1 =
          .error (.InvalidParamException
            ("LgDictEntry requires valid dictionary! " ++ a1.name ++ " was given.")) ∧
        (LGHaveDictEntry.evaluate ns ds ⟨tH, [a0, a1]⟩ as silent).1 =
          .error (.InvalidParamException
            ("LgDictEntry requires valid dictionary! " ++ a1.name ++ " was given."))) ∨
      ((LGDictEntry.execute ns ds sp ⟨tL, [a0, a1]⟩ as silent).1 = .ok a0 ∧
        ∃ tv, (LGHaveDictEntry.evaluate ns ds ⟨tH, [a0, a1]⟩ as silent).1 = .ok tv)) := by
  by_cases hc : ns.WORD_NODE ≠ a0.type ∨ ns.LG_DICT_NODE ≠ a1.type
  · rw [LGDictEntry_execute_eq, LGHaveDictEntry_evaluate_eq, if_pos hc, if_pos hc]
    cases silent
    · exact ⟨⟨fun _ => ⟨_, rfl⟩, fun _ => ⟨_, rfl⟩⟩, Or.inl ⟨rfl, rfl, rfl⟩⟩
    · exact ⟨⟨fun _ => ⟨_, rfl⟩, fun _ => ⟨_, rfl⟩⟩, Or.inr (Or.inl ⟨rfl, rfl, rfl⟩)⟩
  · have hc2 := hc
    push_neg at hc2
    cases hd : ds.get_dictionary a1 with
    | none =>
      rw [LGDictEntry_execute_eq, LGHaveDictEntry_evaluate_eq, if_neg hc, if_neg hc, hd]
      exact ⟨⟨fun _ => ⟨_, rfl⟩, fun _ => ⟨_, rfl⟩⟩, Or.inr (Or.inr (Or.inl ⟨rfl, rfl⟩))⟩
    | some dict =>
      rw [LGDictEntry_execute_valid ns ds sp tL a0 a1 [] as silent dict hc2.1.symm hc2.2.symm hd,
        LGHaveDictEntry_evaluate_valid ns ds tH a0 a1 [] as silent dict hc2.1.symm hc2.2.symm hd]
      refine ⟨⟨?_, ?_⟩, Or.inr (Or.inr (Or.inr ⟨rfl, _, rfl⟩))⟩
      · rintro ⟨e, he⟩
        simp at he
      · rintro ⟨e, he⟩
        simp at he

/-- C15: for both call kinds, with `silent` off, when argument 0 is tagged
`WORD_NODE` and argument 1 is not tagged `LG_DICT_NODE`, the exception thrown
by evaluation says "Expecting WordNode" and carries the text of argument 0; it
is the same whatever argument 1 is. At construction an argument 1 tagged none
of `LG_DICT_NODE`, `VARIABLE_NODE`, `GLOB_NODE` is reported as "Expecting
LgDictNode" with the text of argument 1 itself. -/
theorem evaluation_blames_argument0 {S : Type} (ns : NameServer) (ds : DictService)
    (sp : AtomSpace S) (tL tH : AtomType) (a0 a1 : Handle) (as : S)
    (h0 : a0.type = ns.WORD_NODE) (h1 : a1.type ≠ ns.LG_DICT_NODE) :
    LGDictEntry.execute ns ds sp ⟨tL, [a0, a1]⟩ as false =
      (.error (.InvalidParamException
        ("LgDictEntry: Expecting WordNode, got " ++ a0.to_string)), as) ∧
    LGHaveDictEntry.evaluate ns ds ⟨tH, [a0, a1]⟩ as false =
      (.error (.InvalidParamException
        ("LgHaveDictEntry: Expecting WordNode, got " ++ a0.to_string)), as) ∧
    (∀ b1 : Handle, b1.type ≠ ns.LG_DICT_NODE →
      LGDictEntry.execute ns ds sp ⟨tL, [a0, b1]⟩ as false =
        LGDictEntry.execute ns ds sp ⟨tL, [a0, a1]⟩ as false ∧
      LGHaveDictEntry.evaluate ns ds ⟨tH, [a0, b1]⟩ as false =
        LGHaveDictEntry.evaluate ns ds ⟨tH, [a0, a1]⟩ as false) ∧
    (a1.type ≠ ns.VARIABLE_NODE → a1.type ≠ ns.GLOB_NODE →
      (ns.isA tL ns.LG_DICT_ENTRY = true →
        LGDictEntry.LGDictEntry ns [a0, a1] tL = .error (.InvalidParamException
          ("LgDictEntry: Expecting LgDictNode, got " ++ a1.to_string))) ∧
      (ns.isA tH ns.LG_HAVE_DICT_ENTRY = true →
        LGHaveDictEntry.LGHaveDictEntry ns [a0, a1] tH = .error (.InvalidParamException
          ("LgHaveDictEntry: Expecting LgDictNode, got " ++ a1.to_string)))) := by
  have key : ∀ b1 : Handle, b1.type ≠ ns.LG_DICT_NODE →
      LGDictEntry.execute ns ds sp ⟨tL, [a0, b1]⟩ as false =
        (.error (.InvalidParamException
          ("LgDictEntry: Expecting WordNode, got " ++ a0.to_string)), as) ∧
      LGHaveDictEntry.evaluate ns ds ⟨tH, [a0, b1]⟩ as false =
        (.error (.InvalidParamException
          ("LgHaveDictEntry: Expecting WordNode, got " ++ a0.to_string)), as) := by
    intro b1 hb
    have hc : ns.WORD_NODE ≠ a0.type ∨ ns.LG_DICT_NODE ≠ b1.type :=
      Or.inr (fun e => hb e.symm)
    rw [LGDictEntry_execute_eq, LGHaveDictEntry_evaluate_eq, if_pos hc, if_pos hc]
    simp
  refine ⟨(key a1 h1).1, (key a1 h1).2, ?_, ?_⟩
  · intro b1 hb
    rw [(key b1 hb).1, (key b1 hb).2, (key a1 h1).1, (key a1 h1).2]
    exact ⟨rfl, rfl⟩
  · intro hV hG
    have hbad : ns.LG_DICT_NODE ≠ a1.type ∧ ns.VARIABLE_NODE ≠ a1.type ∧
        ns.GLOB_NODE ≠ a1.type :=
      ⟨fun e => h1 e.symm, fun e => hV e.symm, fun e => hG e.symm⟩
    have hgood : ¬ (ns.WORD_NODE ≠ a0.type ∧ ns.VARIABLE_NODE ≠ a0.type ∧
        ns.GLOB_NODE ≠ a0.type) := fun h => h.1 h0.symm
    rw [LGDictEntry_ctor_eq, LGHaveDictEntry_ctor_eq, LGDictEntry_init_pair,
      LGHaveDictEntry_init_pair, if_neg hgood, if_neg hgood, if_pos hbad, if_pos hbad]
    constructor
    · intro hA; simp [hA]
    · intro hA; simp [hA]

/-- C15 at the word "cat" with a number where the dictionary node should be. -/
theorem evaluation_blames_argument0_witness :
    (wordCat.type = exampleNameServer.WORD_NODE ∧
      number42.type ≠ exampleNameServer.LG_DICT_NODE) ∧
    (LGDictEntry.execute exampleNameServer exampleDict listSpace
        ⟨5, [wordCat, number42]⟩ [] false =
      (.error (.InvalidParamException
        ("LgDictEntry: Expecting WordNode, got " ++ wordCat.to_string)), []) ∧
    LGHaveDictEntry.evaluate exampleNameServer exampleDict
        ⟨6, [wordCat, number42]⟩ ([] : List Atom) false =
      (.error (.InvalidParamException
        ("LgHaveDictEntry: Expecting WordNode, got " ++ wordCat.to_string)), []) ∧
    (∀ b1 : Handle, b1.type ≠ exampleNameServer.LG_DICT_NODE →
      LGDictEntry.execute exampleNameServer exampleDict listSpace
          ⟨5, [wordCat, b1]⟩ [] false =
        LGDictEntry.execute exampleNameServer exampleDict listSpace
          ⟨5, [wordCat, number42]⟩ [] false ∧
      LGHaveDictEntry.evaluate exampleNameServer exampleDict
          ⟨6, [wordCat, b1]⟩ ([] : List Atom) false =
        LGHaveDictEntry.evaluate exampleNameServer exampleDict
          ⟨6, [wordCat, number42]⟩ [] false) ∧
    (number42.type ≠ exampleNameServer.VARIABLE_NODE →
      number42.type ≠ exampleNameServer.GLOB_NODE →
      (exampleNameServer.isA 5 exampleNameServer.LG_DICT_ENTRY = true →
        LGDictEntry.LGDictEntry exampleNameServer [wordCat, number42] 5 =
          .error (.InvalidParamException
            ("LgDictEntry: Expecting LgDictNode, got " ++ number42.to_string))) ∧
      (exampleNameServer.isA 6 exampleNameServer.LG_HAVE_DICT_ENTRY = true →
        LGHaveDictEntry.LGHaveDictEntry exampleNameServer [wordCat, number42] 6 =
          .error (.InvalidParamException
            ("LgHaveDictEntry: Expecting LgDictNode, got " ++ number42.to_string))))) :=
  ⟨by decide,
    evaluation_blames_argument0 exampleNameServer exampleDict listSpace 5 6 wordCat number42
      [] (by decide) (by decide)⟩

/-! ## Re-evaluation -/

/-- The loop over a concatenation is the loop over the parts, one after the other. -/
theorem add_atoms_append {S : Type} (sp : AtomSpace S) (xs ys : HandleSeq) (as : S) :
    add_atoms sp (xs ++ ys) as = add_atoms sp ys (add_atoms sp xs as) := by
  induction xs generalizing as with
  | nil => rfl
  | cons x xs ih => exact ih (sp.add_atom as x)

/-- Every atom the loop went over is present afterwards. -/
theorem inserted_of_mem {S : Type} (sp : AtomSpace S) (djs : HandleSeq) (as : S) (d : Handle)
    (hmem : d ∈ djs) : Inserted sp (add_atoms sp djs as) d := by
  obtain ⟨pre, post, rfl⟩ := List.append_of_mem hmem
  exact ⟨add_atoms sp pre as, post, by rw [add_atoms_append]; rfl⟩

/-- An atom that is present stays present when further atoms are added. -/
theorem inserted_add_atom {S : Type} (sp : AtomSpace S) (s : S) (h d : Handle)
    (hin : Inserted sp s h) : Inserted sp (sp.add_atom s d) h := by
  obtain ⟨s0, post, rfl⟩ := hin
  refine ⟨s0, post ++ [d], ?_⟩
  rw [add_atoms_append]
  rfl

/-- On an AtomSpace where adding a present atom changes nothing, the loop over
atoms that are all present changes nothing. -/
theorem add_atoms_present {S : Type} (sp : AtomSpace S)
    (hidem : ∀ s h, Inserted sp s h → sp.add_atom s h = s)
    (djs : HandleSeq) (s : S) (hall : ∀ d ∈ djs, Inserted sp s d) :
    add_atoms sp djs s = s := by
  induction djs with
  | nil => rfl
  | cons d djs ih =>
    show add_atoms sp djs (sp.add_atom s d) = s
    rw [hidem s d (hall d (List.mem_cons_self d djs))]
    exact ih (fun e he => hall e (List.mem_cons_of_mem d he))

/-- The list AtomSpace keeps its atoms through the loop. -/
theorem listSpace_mem_add_atoms (djs : HandleSeq) (s : List Atom) (h : Handle)
    (hin : h ∈ s) : h ∈ add_atoms listSpace djs s := by
  refine add_atoms_keeps listSpace (fun s h => h ∈ s) ?_ djs s h hin
  intro s h dj hs
  show h ∈ (if dj ∈ s then s else s ++ [dj])
  split
  · exact hs
  · exact List.mem_append_left _ hs

/-- On the list AtomSpace adding a present atom changes nothing. -/
theorem listSpace_idempotent (s : List Atom) (h : Handle)
    (hin : Inserted listSpace s h) : listSpace.add_atom s h = s := by
  obtain ⟨s0, post, rfl⟩ := hin
  have hmem : h ∈ add_atoms listSpace post (listSpace.add_atom s0 h) := by
    apply listSpace_mem_add_atoms
    show h ∈ (if h ∈ s0 then s0 else s0 ++ [h])
    split
    · assumption
    · simp
  show (if h ∈ add_atoms listSpace post (listSpace.add_atom s0 h) then _ else _) = _
  rw [if_pos hmem]

/-- C16: over an AtomSpace on which adding an atom that is already present
leaves the AtomSpace unchanged, and with a dictionary that returns at the
second evaluation the entries it returned at the first, evaluating a valid
Lookup link twice returns argument 0 both times and the AtomSpace after the
second evaluation is the AtomSpace after the first. -/
theorem reevaluation_is_idempotent {S : Type} (ns : NameServer) (ds ds2 : DictService)
    (sp : AtomSpace S) (t : AtomType) (a0 a1 : Handle) (as : S) (silent silent2 : Bool)
    (dict dict2 : Dictionary)
    (h0 : a0.type = ns.WORD_NODE) (h1 : a1.type = ns.LG_DICT_NODE)
    (hd : ds.get_dictionary a1 = some dict) (hd2 : ds2.get_dictionary a1 = some dict2)
    (hsame : ds2.getDictEntry dict2 a0.name = ds.getDictEntry dict a0.name)
    (hidem : ∀ s h, Inserted sp s h → sp.add_atom s h = s) :
    (LGDictEntry.execute ns ds sp ⟨t, [a0, a1]⟩ as silent).1 = .ok a0 ∧
    (LGDictEntry.execute ns ds2 sp ⟨t, [a0, a1]⟩
      (LGDictEntry.execute ns ds sp ⟨t, [a0, a1]⟩ as silent).2 silent2).1 = .ok a0 ∧
    (LGDictEntry.execute ns ds2 sp ⟨t, [a0, a1]⟩
      (LGDictEntry.execute ns ds sp ⟨t, [a0, a1]⟩ as silent).2 silent2).2 =
      (LGDictEntry.execute ns ds sp ⟨t, [a0, a1]⟩ as silent).2 := by
  rw [LGDictEntry_execute_valid ns ds sp t a0 a1 [] as silent dict h0 h1 hd,
    LGDictEntry_execute_valid ns ds2 sp t a0 a1 [] _ silent2 dict2 h0 h1 hd2, hsame]
  refine ⟨rfl, rfl, ?_⟩
  exact add_atoms_present sp hidem _ _ (fun d hmem => inserted_of_mem sp _ as d hmem)

/-- C16 at "cat" in the dictionary "en", twice on the list AtomSpace. -/
theorem reevaluation_is_idempotent_witness :
    (wordCat.type = exampleNameServer.WORD_NODE ∧
      dictEn.type = exampleNameServer.LG_DICT_NODE ∧
      exampleDict.get_dictionary dictEn = some 1 ∧
      exampleDict.getDictEntry 1 wordCat.name = exampleDict.getDictEntry 1 wordCat.name ∧
      ∀ s h, Inserted listSpace s h → listSpace.add_atom s h = s) ∧
    ((LGDictEntry.execute exampleNameServer exampleDict listSpace
        ⟨5, [wordCat, dictEn]⟩ [wordZzzqx] false).1 = .ok wordCat ∧
    (LGDictEntry.execute exampleNameServer exampleDict listSpace ⟨5, [wordCat, dictEn]⟩
      (LGDictEntry.execute exampleNameServer exampleDict listSpace
        ⟨5, [wordCat, dictEn]⟩ [wordZzzqx] false).2 true).1 = .ok wordCat ∧
    (LGDictEntry.execute exampleNameServer exampleDict listSpace ⟨5, [wordCat, dictEn]⟩
      (LGDictEntry.execute exampleNameServer exampleDict listSpace
        ⟨5, [wordCat, dictEn]⟩ [wordZzzqx] false).2 true).2 =
      (LGDictEntry.execute exampleNameServer exampleDict listSpace
        ⟨5, [wordCat, dictEn]⟩ [wordZzzqx] false).2) :=
  ⟨⟨by decide, by decide, by decide, rfl, listSpace_idempotent⟩,
    reevaluation_is_idempotent exampleNameServer exampleDict exampleDict listSpace 5 wordCat
      dictEn [wordZzzqx] false true 1 1 (by decide) (by decide) (by decide) (by decide) rfl
      listSpace_idempotent⟩

/-! ## Order of the checks, subscripts, and the tag check -/

/-- `execute` on a link whose argument 0 is not a word, whatever follows it. -/
theorem LGDictEntry_execute_bad_argument0 {S : Type} (ns : NameServer) (ds : DictService)
    (sp : AtomSpace S) (t : AtomType) (a0 : Handle) (rest : HandleSeq) (as : S)
    (silent : Bool) (h : a0.type ≠ ns.WORD_NODE) :
    LGDictEntry.execute ns ds sp ⟨t, a0 :: rest⟩ as silent =
      if silent then (.error .SilentException, as)
      else (.error (.InvalidParamException
        ("LgDictEntry: Expecting WordNode, got " ++ a0.to_string)), as) := by
  have hc : ns.WORD_NODE ≠ a0.type := fun e => h e.symm
  simp [LGDictEntry.execute, subscript, hc]

/-- `evaluate` on a link whose argument 0 is not a word, whatever follows it. -/
theorem LGHaveDictEntry_evaluate_bad_argument0 {S : Type} (ns : NameServer)
    (ds : DictService) (t : AtomType) (a0 : Handle) (rest : HandleSeq) (as : S)
    (silent : Bool) (h : a0.type ≠ ns.WORD_NODE) :
    LGHaveDictEntry.evaluate ns ds ⟨t, a0 :: rest⟩ as silent =
      if silent then (.error .SilentException, as)
      else (.error (.InvalidParamException
        ("LgHaveDictEntry: Expecting WordNode, got " ++ a0.to_string)), as) := by
  have hc : ns.WORD_NODE ≠ a0.type := fun e => h e.symm
  simp [LGHaveDictEntry.evaluate, subscript, hc]

/-- C17: for both call kinds, when argument 0 is not tagged `WORD_NODE` or
argument 1 is not tagged `LG_DICT_NODE`, evaluation throws `SilentException`
in silent mode and the "Expecting WordNode" `InvalidParamException` otherwise,
with the AtomSpace unchanged, and the whole outcome is the same for any two
dictionary services (handle states and contents): the dictionary plays no
part. Argument 0 is checked first: when it is not a word the outcome is this
one whatever follows it in the outgoing set, even nothing. -/
theorem type_checks_precede_dictionary {S : Type} (ns : NameServer) (ds ds2 : DictService)
    (sp : AtomSpace S) (tL tH : AtomType) (a0 a1 : Handle) (as : S) (silent : Bool)
    (h : a0.type ≠ ns.WORD_NODE ∨ a1.type ≠ ns.LG_DICT_NODE) :
    LGDictEntry.execute ns ds sp ⟨tL, [a0, a1]⟩ as silent =
      (if silent then (.error .SilentException, as)
       else (.error (.InvalidParamException
        ("LgDictEntry: Expecting WordNode, got " ++ a0.to_string)), as)) ∧
    LGHaveDictEntry.evaluate ns ds ⟨tH, [a0, a1]⟩ as silent =
      (if silent then (.error .SilentException, as)
       else (.error (.InvalidParamException
        ("LgHaveDictEntry: Expecting WordNode, got " ++ a0.to_string)), as)) ∧
    LGDictEntry.execute ns ds2 sp ⟨tL, [a0, a1]⟩ as silent =
      LGDictEntry.execute ns ds sp ⟨tL, [a0, a1]⟩ as silent ∧
    LGHaveDictEntry.evaluate ns ds2 ⟨tH, [a0, a1]⟩ as silent =
      LGHaveDictEntry.evaluate ns ds ⟨tH, [a0, a1]⟩ as silent ∧
    (LGDictEntry.execute ns ds sp ⟨tL, [a0, a1]⟩ as silent).2 = as ∧
    (LGHaveDictEntry.evaluate ns ds ⟨tH, [a0, a1]⟩ as silent).2 = as ∧
    (a0.type ≠ ns.WORD_NODE → ∀ rest : HandleSeq,
      LGDictEntry.execute ns ds sp ⟨tL, a0 :: rest⟩ as silent =
        LGDictEntry.execute ns ds sp ⟨tL, [a0, a1]⟩ as silent ∧
      LGHaveDictEntry.evaluate ns ds ⟨tH, a0 :: rest⟩ as silent =
        LGHaveDictEntry.evaluate ns ds ⟨tH, [a0, a1]⟩ as silent) := by
  have hc : ns.WORD_NODE ≠ a0.type ∨ ns.LG_DICT_NODE ≠ a1.type :=
    h.imp (fun x e => x e.symm) (fun x e => x e.symm)
  have eL : ∀ d : DictService, LGDictEntry.execute ns d sp ⟨tL, [a0, a1]⟩ as silent =
      (if silent then (.error .SilentException, as)
       else (.error (.InvalidParamException
        ("LgDictEntry: Expecting WordNode, got " ++ a0.to_string)), as)) := by
    intro d
    rw [LGDictEntry_execute_eq, if_pos hc]
  have eH : ∀ d : DictService, LGHaveDictEntry.evaluate ns d ⟨tH, [a0, a1]⟩ as silent =
      (if silent then (.error .SilentException, as)
       else (.error (.InvalidParamException
        ("LgHaveDictEntry: Expecting WordNode, got " ++ a0.to_string)), as)) := by
    intro d
    rw [LGHaveDictEntry_evaluate_eq, if_pos hc]
  refine ⟨eL ds, eH ds, ?_, ?_, ?_, ?_, ?_⟩
  · rw [eL ds, eL ds2]
  · rw [eH ds, eH ds2]
  · rw [eL ds]; cases silent <;> rfl
  · rw [eH ds]; cases silent <;> rfl
  · intro hw rest
    rw [eL ds, eH ds, LGDictEntry_execute_bad_argument0 ns ds sp tL a0 rest as silent hw,
      LGHaveDictEntry_evaluate_bad_argument0 ns ds tH a0 rest as silent hw]
    exact ⟨rfl, rfl⟩

/-- C17 at a number in position 0 and the dictionary node "xx", whose
dictionary is `nullptr`, in silent mode: `SilentException`, not the
missing-dictionary exception. -/
theorem type_checks_precede_dictionary_witness :
    (number42.type ≠ exampleNameServer.WORD_NODE ∨
      dictXx.type ≠ exampleNameServer.LG_DICT_NODE) ∧
    exampleDict.get_dictionary dictXx = none ∧
    (LGDictEntry.execute exampleNameServer exampleDict listSpace
        ⟨5, [number42, dictXx]⟩ [wordCat] true = (.error .SilentException, [wordCat])) ∧
    (LGHaveDictEntry.evaluate exampleNameServer exampleDict
        ⟨6, [number42, dictXx]⟩ [wordCat] true = (.error .SilentException, [wordCat])) :=
  ⟨by decide, by decide,
    (type_checks_precede_dictionary exampleNameServer exampleDict exampleDict listSpace 5 6
      number42 dictXx [wordCat] true (by decide)).1,
    (type_checks_precede_dictionary exampleNameServer exampleDict exampleDict listSpace 5 6
      number42 dictXx [wordCat] true (by decide)).2.1⟩

/-- C18: for both call kinds and every link with exactly two arguments, the
subscripts `_outgoing[0]` and `_outgoing[1]` are within bounds and neither
`execute` nor `evaluate` ends in the out-of-range outcome, for any dictionary
service, AtomSpace and value of `silent`. -/
theorem subscripts_in_range {S : Type} (ns : NameServer) (ds : DictService)
    (sp : AtomSpace S) (self : Link) (as : S) (silent : Bool)
    (hlen : self.outgoing.length = 2) :
    (∃ a0, subscript self.outgoing 0 = .ok a0) ∧
    (∃ a1, subscript self.outgoing 1 = .ok a1) ∧
    (LGDictEntry.execute ns ds sp self as silent).1 ≠ .error .OutOfRange ∧
    (LGHaveDictEntry.evaluate ns ds self as silent).1 ≠ .error .OutOfRange := by
  obtain ⟨t, oset⟩ := self
  obtain ⟨a0, a1, rfl⟩ := List.length_eq_two.mp hlen
  refine ⟨⟨a0, rfl⟩, ⟨a1, rfl⟩, ?_, ?_⟩
  · rw [LGDictEntry_execute_eq]
    split_ifs
    · simp
    · simp
    · cases ds.get_dictionary a1 <;> simp
  · rw [LGHaveDictEntry_evaluate_eq]
    split_ifs
    · simp
    · simp
    · cases ds.get_dictionary a1
      · simp
      · dsimp only
        split_ifs <;> simp

/-- C18 at the link of "cat" and the dictionary node "en". -/
theorem subscripts_in_range_witness :
    (⟨5, [wordCat, dictEn]⟩ : Link).outgoing.length = 2 ∧
    ((∃ a0, subscript (⟨5, [wordCat, dictEn]⟩ : Link).outgoing 0 = .ok a0) ∧
    (∃ a1, subscript (⟨5, [wordCat, dictEn]⟩ : Link).outgoing 1 = .ok a1) ∧
    (LGDictEntry.execute exampleNameServer exampleDict listSpace
        ⟨5, [wordCat, dictEn]⟩ [] false).1 ≠ .error .OutOfRange ∧
    (LGHaveDictEntry.evaluate exampleNameServer exampleDict
        ⟨5, [wordCat, dictEn]⟩ ([] : List Atom) false).1 ≠ .error .OutOfRange) :=
  ⟨rfl, subscripts_in_range exampleNameServer exampleDict listSpace ⟨5, [wordCat, dictEn]⟩ []
    false rfl⟩

/-- C19: each constructor checks the tag first: when the tag given to a
Lookup constructor is not `LG_DICT_ENTRY` or a subtype of it under `isA`, both
the `(oset, t)` constructor and the copy constructor throw the
`InvalidParamException` "Expecting an LgDictEntry" naming the given type,
whatever the outgoing set is; likewise for Existence with
`LG_HAVE_DICT_ENTRY` and "Expecting an LgHaveDictEntry". -/
theorem construction_checks_tag_first (ns : NameServer) (oset : HandleSeq) (tL tH : AtomType)
    (hL : ns.isA tL ns.LG_DICT_ENTRY = false)
    (hH : ns.isA tH ns.LG_HAVE_DICT_ENTRY = false) :
    LGDictEntry.LGDictEntry ns oset tL = .error (.InvalidParamException
      ("Expecting an LgDictEntry, got " ++ ns.getTypeName tL)) ∧
    LGDictEntry.LGDictEntry_Link ns ⟨tL, oset⟩ = .error (.InvalidParamException
      ("Expecting an LgDictEntry, got " ++ ns.getTypeName tL)) ∧
    LGHaveDictEntry.LGHaveDictEntry ns oset tH = .error (.InvalidParamException
      ("Expecting an LgHaveDictEntry, got " ++ ns.getTypeName tH)) ∧
    LGHaveDictEntry.LGHaveDictEntry_Link ns ⟨tH, oset⟩ = .error (.InvalidParamException
      ("Expecting an LgHaveDictEntry, got " ++ ns.getTypeName tH)) := by
  refine ⟨?_, ?_, ?_, ?_⟩
  · rw [LGDictEntry_ctor_eq, if_pos hL]
  · simp [LGDictEntry.LGDictEntry_Link, hL, bind, Except.bind, throw, throwThe,
      MonadExceptOf.throw]
  · rw [LGHaveDictEntry_ctor_eq, if_pos hH]
  · simp [LGHaveDictEntry.LGHaveDictEntry_Link, hH, bind, Except.bind, throw, throwThe,
      MonadExceptOf.throw]

/-- C19 at a well-shaped outgoing set, with the Existence tag given to the
Lookup constructors and the Lookup tag to the Existence constructors. -/
theorem construction_checks_tag_first_witness :
    (exampleNameServer.isA exampleNameServer.LG_HAVE_DICT_ENTRY
        exampleNameServer.LG_DICT_ENTRY = false ∧
      exampleNameServer.isA exampleNameServer.LG_DICT_ENTRY
        exampleNameServer.LG_HAVE_DICT_ENTRY = false) ∧
    (LGDictEntry.LGDictEntry exampleNameServer [wordCat, dictEn] 6 =
      .error (.InvalidParamException
        ("Expecting an LgDictEntry, got " ++ exampleNameServer.getTypeName 6)) ∧
    LGDictEntry.LGDictEntry_Link exampleNameServer ⟨6, [wordCat, dictEn]⟩ =
      .error (.InvalidParamException
        ("Expecting an LgDictEntry, got " ++ exampleNameServer.getTypeName 6)) ∧
    LGHaveDictEntry.LGHaveDictEntry exampleNameServer [wordCat, dictEn] 5 =
      .error (.InvalidParamException
        ("Expecting an LgHaveDictEntry, got " ++ exampleNameServer.getTypeName 5)) ∧
    LGHaveDictEntry.LGHaveDictEntry_Link exampleNameServer ⟨5, [wordCat, dictEn]⟩ =
      .error (.InvalidParamException
        ("Expecting an LgHaveDictEntry, got " ++ exampleNameServer.getTypeName 5))) :=
  ⟨by decide,
    construction_checks_tag_first exampleNameServer [wordCat, dictEn] 6 5 (by decide)
      (by decide)⟩

end opencog
